import Mathlib

/-!
# glw_imgui, SDL/OpenGL platform backend (`demo/platform_sdl.cpp`)

A shallow embedding of the renderer and platform adapter of
`demo/platform_sdl.cpp`.  The OpenGL library is external to the
repository, so every `gl*` function the code calls is embedded as an
entry appended to an ordered record of calls (`World.calls`); values the
library hands back (object names, compile and link statuses, pending error
flags) are read from a `GLDriver` and from the `World`.

Machine integers are `Nat` and `Int` with explicit wrap-around:
`unsigned int` is reduced modulo `2^32` (`wrapU32`), `size_t` modulo `2^64`
(`wrapU64`), and a conversion to `int` or `GLsizei`, like the start index of
`render_mesh`, to the two's-complement range (`wrapI32`).
Where C++ leaves the behaviour undefined (an access outside a memory block,
an `int` increment past `INT_MAX`, a read of an uninitialised variable, a
conversion of a `float` outside the range of `int`) the embedded function
has no result: `none`, or an `Undefined` value that says which of these was
met.

A `float` is embedded as the rational number it stands for, and every
`float` operation as the exact operation followed by `roundF32`, the IEEE 754
binary32 rounding to nearest, ties to even.
-/

/-! ## Machine integers -/

/-- Value of an `unsigned int` (32 bits) expression: reduction modulo `2^32`. -/
def wrapU32 (n : Nat) : Nat := n % 4294967296

/-- Value of a `size_t` (64 bits) expression: reduction modulo `2^64`. -/
def wrapU64 (n : Nat) : Nat := n % 18446744073709551616

/-- Value of an `int` (32 bits, two's complement) expression: the
representative of `z` modulo `2^32` in `[-2^31, 2^31)`. -/
def wrapI32 (z : Int) : Int := (z + 2147483648) % 4294967296 - 2147483648

/-- Conversion of a `GLint` to the `GLuint` parameter of a call. -/
def toGLuint (z : Int) : Nat := (z % 4294967296).toNat

/-- What makes the behaviour of an execution undefined in C++. -/
inductive Undefined
  | outOfBounds
  | signedOverflow
  | uninitialised
  deriving DecidableEq, Repr

/-! ## Single-precision floating point -/

/-- Rounding of a rational to the nearest integer, a tie going to the even
one. -/
def roundHalfEven (q : ℚ) : ℤ :=
  if q - ⌊q⌋ < 1 / 2 then ⌊q⌋
  else if 1 / 2 < q - ⌊q⌋ then ⌊q⌋ + 1
  else if ⌊q⌋ % 2 = 0 then ⌊q⌋ else ⌊q⌋ + 1

/-- The binary32 value nearest to `q`, ties to even: with
`2^e ≤ |q| < 2^(e+1)`, the multiple of `2^(e-23)` nearest to `q` (24
significant bits).  The exponent is not bounded here; the values
`set_scissor` forms from 32-bit `int`s (quotients between `2^-31` and `2^31`,
products below `2^62`) lie inside the normal range of binary32, where this is
the IEEE 754 rounding. -/
def roundF32 (q : ℚ) : ℚ :=
  if q = 0 then 0
  else (roundHalfEven (q / (2 : ℚ) ^ (Int.log 2 |q| - 23)) : ℚ) * (2 : ℚ) ^ (Int.log 2 |q| - 23)

/-- Truncation toward zero. -/
def truncate (q : ℚ) : ℤ := if 0 ≤ q then ⌊q⌋ else ⌈q⌉

/-- The conversion `(int)f` of a `float`: truncation toward zero, undefined
when the truncated value is not an `int`. -/
def intOfFloat (q : ℚ) : Option Int :=
  if -2147483648 ≤ truncate q ∧ truncate q ≤ 2147483647 then some (truncate q) else none

/-! ## Memory blocks -/

/-- One byte (`unsigned char`). -/
abbrev Byte := Nat

/-- A block returned by `malloc`: one cell per byte, `none` while the byte has
never been written.  The allocator is taken to hand back a block for every
request. -/
abbrev Block := List (Option Byte)

/-- Calls into the C allocator, in order. -/
inductive HeapEvent
  | malloc (size : Nat)
  | free (size : Nat)
  deriving DecidableEq, Repr

/-! ## The graphics library as a record of calls -/

/-- The OpenGL enumerants named in `platform_sdl.cpp`. -/
inductive GLenum
  | GL_BLEND | GL_SCISSOR_TEST
  | GL_ONE | GL_SRC_ALPHA | GL_ONE_MINUS_SRC_ALPHA
  | GL_ARRAY_BUFFER | GL_DYNAMIC_DRAW
  | GL_FLOAT | GL_UNSIGNED_BYTE | GL_TRIANGLES
  | GL_TEXTURE_2D | GL_RGB | GL_RGBA | GL_TEXTURE_MIN_FILTER | GL_LINEAR
  | GL_VERTEX_SHADER | GL_FRAGMENT_SHADER
  | GL_COMPILE_STATUS | GL_LINK_STATUS | GL_INFO_LOG_LENGTH
  deriving DecidableEq, Repr

/-- The value of `GL_TRUE` in the OpenGL headers. -/
def GL_TRUE : Int := 1

/-- The value of `GL_FALSE` in the OpenGL headers. -/
def GL_FALSE : Int := 0

/-- The value of `GL_NO_ERROR` in the OpenGL headers. -/
def GL_NO_ERROR : Nat := 0

/-- Modelled from the spec: `render_vertex_3d_t` is declared in a header that
is not among the sources; the spec gives a vertex as position (3 floats),
colour (4 bytes packed) and texture coordinate (2 floats).  The vertex buffer
only copies vertices, so each 32-bit field is kept as its bit pattern. -/
structure render_vertex_3d_t where
  x : Nat
  y : Nat
  z : Nat
  clr : Nat
  u : Nat
  v : Nat
  deriving DecidableEq, Repr

/-- Modelled from the spec: `sizeof(render_vertex_3d_t)`, three floats, four
colour bytes and two floats. -/
def sizeof_render_vertex_3d_t : Nat := 24

/-- Modelled from the spec: `offsetof(render_vertex_3d_t, clr)`, after the
three position floats. -/
def offsetof_clr : Nat := 12

/-- Modelled from the spec: `offsetof(render_vertex_3d_t, u)`, after the
position and the packed colour. -/
def offsetof_u : Nat := 16

/-- One call into the OpenGL library, with the arguments it was given. -/
inductive GLCall
  | GetError
  | Enable (cap : GLenum)
  | Disable (cap : GLenum)
  | BlendFunc (sfactor dfactor : GLenum)
  | UseProgram (program : Nat)
  | EnableVertexAttribArray (index : Nat)
  | DisableVertexAttribArray (index : Nat)
  | BindBuffer (target : GLenum) (buffer : Nat)
  | BufferData (target : GLenum) (size : Nat) (data : List render_vertex_3d_t) (usage : GLenum)
  | VertexAttribPointer (index : Nat) (size : Nat) (type : GLenum) (normalized : Bool)
      (stride : Nat) (pointer : Nat)
  | DrawArrays (mode : GLenum) (first : Int) (count : Int)
  | Scissor (x y width height : Int)
  | GenTextures (n : Nat)
  | BindTexture (target : GLenum) (texture : Nat)
  | TexImage2D (target : GLenum) (level : Int) (internalformat : GLenum) (width height : Int)
      (border : Int) (format : GLenum) (type : GLenum) (pixels : Block)
  | TexParameteri (target : GLenum) (pname : GLenum) (param : GLenum)
  | CreateProgram
  | CreateShader (type : GLenum)
  | ShaderSource (shader : Nat) (count : Nat) (source : String)
  | CompileShader (shader : Nat)
  | GetShaderiv (shader : Nat) (pname : GLenum)
  | AttachShader (program shader : Nat)
  | BindAttribLocation (program : Nat) (index : Nat) (name : String)
  | LinkProgram (program : Nat)
  | GetProgramiv (program : Nat) (pname : GLenum)
  | GenVertexArrays (n : Nat)
  | BindVertexArray (array : Nat)
  | GenBuffers (n : Nat)
  | GetUniformLocation (program : Nat) (name : String)
  | IsShader (shader : Nat)
  | IsProgram (program : Nat)
  | GetShaderInfoLog (shader : Nat) (maxLength : Int)
  | GetProgramInfoLog (program : Nat) (maxLength : Int)
  deriving DecidableEq, Repr

/-- Whether a call is the error poll `glGetError`, which `checkError` repeats
once per pending error flag. -/
def GLCall.isPoll : GLCall → Bool
  | GLCall.GetError => true
  | _ => false

/-- Text written to standard output. -/
inductive Out
  | glewError (err : Nat)
  | text (s : String)
  deriving DecidableEq, Repr

/-- Everything outside the renderer object that the code acts on: the calls
made into OpenGL so far, the error flags OpenGL has pending, standard output
and the allocator calls. -/
structure World where
  calls : List GLCall
  errors : List Nat
  stdout : List Out
  heap : List HeapEvent
  deriving DecidableEq, Repr

/-- The calls of a world without the `glGetError` polls. -/
def World.commands (w : World) : List GLCall := w.calls.filter (fun c => !c.isPoll)

/-- Issue one OpenGL call. -/
def World.gl (w : World) (c : GLCall) : World := { w with calls := w.calls ++ [c] }

/-- Write to standard output (`printf`). -/
def World.printf (w : World) (o : Out) : World := { w with stdout := w.stdout ++ [o] }

/-- Call the C allocator (`malloc` or `free`). -/
def World.alloc (w : World) (e : HeapEvent) : World := { w with heap := w.heap ++ [e] }

/-- The loop of `checkError` over the pending error flags: each turn calls
`glGetError`, which hands back and clears the oldest pending flag
(`GL_NO_ERROR` when none is pending), and prints the flag unless it is
`GL_NO_ERROR`. -/
def checkErrorLoop : List Nat → World → World
  | [], w => { (w.gl GLCall.GetError) with errors := [] }
  | err :: pending, w =>
    if err ≠ GL_NO_ERROR then
      checkErrorLoop pending ((w.gl GLCall.GetError).printf (Out.glewError err))
    else
      { (w.gl GLCall.GetError) with errors := pending }

/-- Embedding of `checkError()`, lines 73-81 (without the `WIN32` copy of the
message to the debugger). -/
def checkError (w : World) : World := checkErrorLoop w.errors w

/-! ## The renderer object -/

/-- The state of a `RenderSDL` object: the member `_mesh`, the per-frame
vertex accumulator. -/
structure RenderSDL where
  _mesh : List render_vertex_3d_t
  deriving DecidableEq, Repr

/-- A renderer object with an empty vector. -/
def RenderSDL.initial : RenderSDL := { _mesh := [] }

/-- The file-scope variables of lines 63-68, shared by every renderer
object. -/
structure Globals where
  gProgramID : Nat
  gVertexPos3DLocation : Int
  gVertexClrLocation : Int
  gVertexTxtLocation : Int
  gScreenSizeLocation : Int
  vao : Nat
  vbo : Nat
  deriving DecidableEq, Repr

/-- The file-scope variables at program start: the initialisers of lines
63-67, and zero for `vao` and `vbo`, which have none. -/
def Globals.initial : Globals :=
  { gProgramID := 0, gVertexPos3DLocation := -1, gVertexClrLocation := -1,
    gVertexTxtLocation := -1, gScreenSizeLocation := -1, vao := 0, vbo := 0 }

/-- Modelled from the spec: the enumeration `BlendMode` is declared in a
header that is not among the sources; the spec gives `set_blend_mode` three
fixed variants, the ones the `switch` of lines 289-301 names. -/
inductive BlendMode
  | BLEND_NONE | BLEND_TEXT | BLEND_RECT
  deriving DecidableEq, Repr

/-- Embedding of `RenderSDL::set_blend_mode`, lines 288-302. -/
def RenderSDL.set_blend_mode (s : RenderSDL) (w : World) (mode : BlendMode) : RenderSDL × World :=
  match mode with
  | BlendMode.BLEND_NONE => (s, w.gl (GLCall.Disable GLenum.GL_BLEND))
  | BlendMode.BLEND_TEXT =>
    (s, (w.gl (GLCall.BlendFunc GLenum.GL_ONE GLenum.GL_ONE)).gl (GLCall.Enable GLenum.GL_BLEND))
  | BlendMode.BLEND_RECT =>
    (s, (w.gl (GLCall.BlendFunc GLenum.GL_SRC_ALPHA GLenum.GL_ONE_MINUS_SRC_ALPHA)).gl
          (GLCall.Enable GLenum.GL_BLEND))

/-- Embedding of `RenderSDL::render`, lines 243-262.  `&_mesh[0]` is the
storage of the vector, recorded as the whole vector; the byte count is the
`size_t` product of line 248. -/
def RenderSDL.render (s : RenderSDL) (g : Globals) (w : World) (start count : Int) : World :=
  let w := w.gl (GLCall.BindBuffer GLenum.GL_ARRAY_BUFFER g.vbo)
  let w := w.gl (GLCall.BufferData GLenum.GL_ARRAY_BUFFER
    (wrapU64 (sizeof_render_vertex_3d_t * s._mesh.length)) s._mesh GLenum.GL_DYNAMIC_DRAW)
  let w := checkError w
  let w := w.gl (GLCall.VertexAttribPointer (toGLuint g.gVertexPos3DLocation) 3 GLenum.GL_FLOAT
    false sizeof_render_vertex_3d_t 0)
  let w := w.gl (GLCall.VertexAttribPointer (toGLuint g.gVertexClrLocation) 4
    GLenum.GL_UNSIGNED_BYTE true sizeof_render_vertex_3d_t offsetof_clr)
  let w := w.gl (GLCall.VertexAttribPointer (toGLuint g.gVertexTxtLocation) 2 GLenum.GL_FLOAT
    false sizeof_render_vertex_3d_t offsetof_u)
  let w := checkError w
  w.gl (GLCall.DrawArrays GLenum.GL_TRIANGLES start count)

/-- Embedding of `RenderSDL::render_mesh`, lines 238-242.  `tris` is the array
the pointer argument points to; the range `[tris, tris + count)` handed to
`insert` has to lie inside it, otherwise the result is `none`.  The start
index is the `int` expression `(int)_mesh.size() - count`. -/
def RenderSDL.render_mesh (s : RenderSDL) (g : Globals) (w : World)
    (tris : List render_vertex_3d_t) (count : Int) (b : Bool) :
    Option (Bool × RenderSDL × World) :=
  if 0 ≤ count ∧ count ≤ tris.length then
    let s1 : RenderSDL := { _mesh := s._mesh ++ tris.take count.toNat }
    let w1 := s1.render g w (wrapI32 (wrapI32 s1._mesh.length - count)) count
    some (true, s1, w1)
  else
    none

/-- Embedding of `RenderSDL::end`, lines 263-286 (`end` is a reserved word,
hence the underscore). -/
def RenderSDL.end_ (s : RenderSDL) (g : Globals) (w : World) : Bool × RenderSDL × World :=
  if s._mesh.isEmpty then
    (true, s, w)
  else
    let s1 : RenderSDL := { _mesh := [] }
    let w := checkError w
    let w := w.gl (GLCall.Disable GLenum.GL_SCISSOR_TEST)
    let w := w.gl (GLCall.DisableVertexAttribArray (toGLuint g.gVertexPos3DLocation))
    let w := w.gl (GLCall.DisableVertexAttribArray (toGLuint g.gVertexClrLocation))
    let w := w.gl (GLCall.DisableVertexAttribArray (toGLuint g.gVertexTxtLocation))
    let w := checkError w
    let w := w.gl (GLCall.UseProgram 0)
    (true, s1, w)

/-! ## Shader build and `create()` -/

/-- What the OpenGL library hands back to the calls of `create()`,
`compile_shader` and `create_texture`: the object names it generates, the
statuses it reports and the info logs it keeps. -/
structure GLDriver where
  programID : Nat
  vertexShader : Nat
  fragmentShader : Nat
  vShaderCompiled : Int
  fShaderCompiled : Int
  programSuccess : Int
  vao : Nat
  vbo : Nat
  screenSizeLocation : Int
  ftex : Nat
  isShader : Nat → Bool
  isProgram : Nat → Bool
  infoLogLength : Nat → Int
  infoLog : Nat → String

/-- Embedding of `printShaderLog`, lines 414-440. -/
def printShaderLog (drv : GLDriver) (w : World) (shader : Nat) : World :=
  let w := w.gl (GLCall.IsShader shader)
  if drv.isShader shader then
    let w := w.gl (GLCall.GetShaderiv shader GLenum.GL_INFO_LOG_LENGTH)
    let maxLength := drv.infoLogLength shader
    let w := w.gl (GLCall.GetShaderInfoLog shader maxLength)
    let infoLog := drv.infoLog shader
    if infoLog.length > 0 then w.printf (Out.text (infoLog ++ "\n")) else w
  else
    w.printf (Out.text ("Name " ++ toString shader ++ " is not a shader\n"))

/-- Embedding of `printProgramLog`, lines 386-412. -/
def printProgramLog (drv : GLDriver) (w : World) (program : Nat) : World :=
  let w := w.gl (GLCall.IsProgram program)
  if drv.isProgram program then
    let w := w.gl (GLCall.GetProgramiv program GLenum.GL_INFO_LOG_LENGTH)
    let maxLength := drv.infoLogLength program
    let w := w.gl (GLCall.GetProgramInfoLog program maxLength)
    let infoLog := drv.infoLog program
    if infoLog.length > 0 then w.printf (Out.text (infoLog ++ "\n")) else w
  else
    w.printf (Out.text ("Name " ++ toString program ++ " is not a program\n"))

/-- Embedding of `compile_shader`, lines 137-202: the program name, or `0`
after a failed compile or link. -/
def compile_shader (drv : GLDriver) (w : World) (vertex_source fragment_source : String) :
    Nat × World :=
  let w := w.gl GLCall.CreateProgram
  let programID := drv.programID
  let w := w.gl (GLCall.CreateShader GLenum.GL_VERTEX_SHADER)
  let vertexShader := drv.vertexShader
  let w := w.gl (GLCall.ShaderSource vertexShader 1 vertex_source)
  let w := w.gl (GLCall.CompileShader vertexShader)
  let w := w.gl (GLCall.GetShaderiv vertexShader GLenum.GL_COMPILE_STATUS)
  let vShaderCompiled := drv.vShaderCompiled
  if vShaderCompiled ≠ GL_TRUE then
    let w := w.printf
      (Out.text ("Unable to compile vertex shader " ++ toString vertexShader ++ "!\n"))
    (0, printShaderLog drv w vertexShader)
  else
    let w := w.gl (GLCall.AttachShader programID vertexShader)
    let w := w.gl (GLCall.CreateShader GLenum.GL_FRAGMENT_SHADER)
    let fragmentShader := drv.fragmentShader
    let w := w.gl (GLCall.ShaderSource fragmentShader 1 fragment_source)
    let w := w.gl (GLCall.CompileShader fragmentShader)
    let w := w.gl (GLCall.GetShaderiv fragmentShader GLenum.GL_COMPILE_STATUS)
    let fShaderCompiled := drv.fShaderCompiled
    if fShaderCompiled ≠ GL_TRUE then
      let w := w.printf
        (Out.text ("Unable to compile fragment shader " ++ toString fragmentShader ++ "!\n"))
      (0, printShaderLog drv w fragmentShader)
    else
      let w := w.gl (GLCall.AttachShader programID fragmentShader)
      let w := w.gl (GLCall.BindAttribLocation programID 0 "in_vertex")
      let w := w.gl (GLCall.BindAttribLocation programID 1 "in_color")
      let w := w.gl (GLCall.BindAttribLocation programID 2 "in_texcoord")
      let w := w.gl (GLCall.LinkProgram programID)
      let w := w.gl (GLCall.GetProgramiv programID GLenum.GL_LINK_STATUS)
      let programSuccess := drv.programSuccess
      if programSuccess ≠ GL_TRUE then
        let w := w.printf (Out.text ("Error linking program " ++ toString programID ++ "!\n"))
        (0, printProgramLog drv w programID)
      else
        (programID, w)

/-- The string literal `vertexShaderSource` of lines 88-100. -/
def vertexShaderSource : String :=
  "#version 140\n" ++
  "uniform vec2 screen_size;\n" ++
  "in vec3 in_vertex;\n" ++
  "in vec2 in_texcoord;\n" ++
  "in vec4 in_color;\n" ++
  "out vec4 var_color;\n" ++
  "out vec2 Texcoord;\n" ++
  "void main() \x7b \n" ++
  "Texcoord = in_texcoord;\n" ++
  "gl_Position = vec4(2*in_vertex.x/screen_size.x-1.0, " ++
  "2*in_vertex.y/screen_size.y-1.0, in_vertex.z, 1 );var_color = " ++
  "in_color;\x7d"

/-- The string literal `fragmentShaderSource` of lines 102-110. -/
def fragmentShaderSource : String :=
  "#version 140\n" ++
  "precision highp float;\n" ++
  "in vec2 Texcoord;\n" ++
  "in  vec4 var_color;\n" ++
  "out vec4 FragColor;\n" ++
  "uniform sampler2D tex;\n" ++
  "void main() \x7b FragColor = texture(tex, " ++
  "Texcoord)*var_color; " ++
  "\x7d"

/-- Embedding of `RenderSDL::create`, lines 85-135, which works on the
file-scope variables only.  The local `success` is initialised on line 86 and
returned on line 134. -/
def RenderSDL.create (g : Globals) (drv : GLDriver) (w : World) : Bool × Globals × World :=
  let success := true
  let (programID, w) := compile_shader drv w vertexShaderSource fragmentShaderSource
  let g := { g with gProgramID := programID }
  let w := w.gl (GLCall.GenVertexArrays 1)
  let g := { g with vao := drv.vao }
  let w := w.gl (GLCall.BindVertexArray g.vao)
  let w := w.gl (GLCall.GenBuffers 1)
  let g := { g with vbo := drv.vbo }
  let w := w.gl (GLCall.BindBuffer GLenum.GL_ARRAY_BUFFER g.vbo)
  let g := { g with gVertexPos3DLocation := 0 }
  let g := { g with gVertexClrLocation := 1 }
  let g := { g with gVertexTxtLocation := 2 }
  let w := w.gl (GLCall.GetUniformLocation g.gProgramID "screen_size")
  let g := { g with gScreenSizeLocation := drv.screenSizeLocation }
  let w := checkError w
  (success, g, w)

/-- The vertex attribute locations are the ones `create()` assigns on lines
127-129. -/
def Globals.Created (g : Globals) : Prop :=
  g.gVertexPos3DLocation = 0 ∧ g.gVertexClrLocation = 1 ∧ g.gVertexTxtLocation = 2

/-! ## Textures -/

/-- The memory and the local `j` the luminance conversion of lines 320-330
works on: the caller's block behind `old_bmp`, the block behind `new_bmp`,
and, as a record of what the loop did, the number of iterations run and the
indices read from `old_bmp` and written in `new_bmp`, in order. -/
structure LumState where
  old_bmp : List Byte
  new_bmp : Block
  j : Int
  iters : Nat
  reads : List Nat
  writes : List Int
  deriving DecidableEq, Repr

/-- One statement `new_bmp[j++] = old_bmp[i];` (lines 325-327): the read of
`old_bmp[i]`, the store at the index `j`, and the increment of the `int` `j`.
Reading outside the caller's block or storing outside the allocated block is
undefined, and so is the increment when `j` is `INT_MAX`. -/
def lumAssign (i : Nat) (st : LumState) : Except Undefined LumState :=
  match st.old_bmp[i]? with
  | none => Except.error Undefined.outOfBounds
  | some v =>
    if 0 ≤ st.j ∧ st.j < st.new_bmp.length then
      if st.j + 1 ≤ 2147483647 then
        Except.ok { st with
          new_bmp := st.new_bmp.set st.j.toNat (some v)
          j := st.j + 1
          reads := st.reads ++ [i]
          writes := st.writes ++ [st.j] }
      else
        Except.error Undefined.signedOverflow
    else
      Except.error Undefined.outOfBounds

/-- The body of the loop, lines 325-327: the three statements in turn. -/
def lumBody (i : Nat) (st : LumState) : Except Undefined LumState :=
  match lumAssign i st with
  | Except.error u => Except.error u
  | Except.ok st1 =>
    match lumAssign i st1 with
    | Except.error u => Except.error u
    | Except.ok st2 => lumAssign i st2

/-- The loop `for (uint i = 0; i < height * width; ++i)` of lines 324-328,
from the value `i` of the loop variable on: the test, the body, `++i`.  The
bound is an `unsigned int`, so `++i` does not wrap while the test holds and
the loop ends. -/
def lumLoop (height width : Nat) (i : Nat) (st : LumState) : Except Undefined LumState :=
  if i < wrapU32 (height * width) then
    match lumBody i st with
    | Except.error u => Except.error u
    | Except.ok st1 => lumLoop height width (wrapU32 (i + 1)) { st1 with iters := st1.iters + 1 }
  else
    Except.ok st
termination_by wrapU32 (height * width) - i
decreasing_by
  simp_wf
  unfold wrapU32 at *
  omega

/-- The argument `width * height * 3` of `malloc` on line 321, an
`unsigned int` expression. -/
def lumSize (width height : Nat) : Nat := wrapU32 (wrapU32 (width * height) * 3)

/-- The block `if (channels == 1) {...}` of lines 320-330 on the caller's
block `bmp`: the state when the loop is left. -/
def convertLuminance (width height : Nat) (bmp : List Byte) : Except Undefined LumState :=
  lumLoop height width 0
    { old_bmp := bmp, new_bmp := List.replicate (lumSize width height) none, j := 0,
      iters := 0, reads := [], writes := [] }

/-- The `switch (channels)` of lines 332-343; `bmpFormat` stays uninitialised
(`none`) for a channel count the switch does not name. -/
def bmpFormat (channels : Nat) : Option GLenum :=
  if channels = 1 then some GLenum.GL_RGB
  else if channels = 3 then some GLenum.GL_RGB
  else if channels = 4 then some GLenum.GL_RGBA
  else none

/-- What `create_texture` leaves behind: the texture name returned, the
caller's pixel block after the call, and the world. -/
structure TextureResult where
  ftex : Nat
  bmp : List Byte
  world : World
  deriving DecidableEq, Repr

/-- Embedding of `RenderSDL::create_texture`, lines 307-357.  `bmp` is the
block the pointer argument points to.  There is no result when the
conversion loop has none or the uninitialised `bmpFormat` is read. -/
def RenderSDL.create_texture (drv : GLDriver) (w : World) (width height channels : Nat)
    (bmp : List Byte) : Except Undefined TextureResult :=
  let w := checkError w
  let w := w.gl (GLCall.GenTextures 1)
  let ftex := drv.ftex
  let w := checkError w
  let w := w.gl (GLCall.BindTexture GLenum.GL_TEXTURE_2D ftex)
  let w := checkError w
  let upload (w : World) (caller : List Byte) (pixels : Block) : Except Undefined TextureResult :=
    match bmpFormat channels with
    | none => Except.error Undefined.uninitialised
    | some format =>
      let w := w.gl (GLCall.TexImage2D GLenum.GL_TEXTURE_2D 0 GLenum.GL_RGBA (wrapI32 width)
        (wrapI32 height) 0 format GLenum.GL_UNSIGNED_BYTE pixels)
      let w := checkError w
      let w := if channels = 1 then w.alloc (HeapEvent.free pixels.length) else w
      let w := w.gl (GLCall.TexParameteri GLenum.GL_TEXTURE_2D GLenum.GL_TEXTURE_MIN_FILTER
        GLenum.GL_LINEAR)
      let w := checkError w
      Except.ok { ftex := ftex, bmp := caller, world := w }
  if channels = 1 then
    let w := w.alloc (HeapEvent.malloc (lumSize width height))
    match convertLuminance width height bmp with
    | Except.error u => Except.error u
    | Except.ok st => upload w st.old_bmp st.new_bmp
  else
    upload w bmp (bmp.map some)

/-! ## Scissor rectangle -/

/-- What SDL reports about the window `gWindow`: the drawable size
(`SDL_GL_GetDrawableSize`) and the logical size (`SDL_GetWindowSize`). -/
structure Window where
  drawable_w : Int
  drawable_h : Int
  window_w : Int
  window_h : Int
  deriving DecidableEq, Repr

/-- Embedding of `getDisplayScaleFactor`, lines 204-210: the two quotients
`(float)w / low_dpi_w` and `(float)h / low_dpi_h`, both operands converted to
`float`.  With a logical size of zero the quotient is an infinity or a NaN,
for which the later conversion to `int` is undefined: no result. -/
def getDisplayScaleFactor (win : Window) : Option (ℚ × ℚ) :=
  if win.window_w = 0 ∨ win.window_h = 0 then none
  else
    some (roundF32 (roundF32 win.drawable_w / roundF32 win.window_w),
      roundF32 (roundF32 win.drawable_h / roundF32 win.window_h))

/-- An argument `(int)(scale*v)` of line 384: the `int` `v` is converted to
`float`, the product is taken in `float` and converted to `int`. -/
def scaledCoord (scale : ℚ) (v : Int) : Option Int :=
  intOfFloat (roundF32 (scale * roundF32 v))

/-- Embedding of `RenderSDL::set_scissor`, lines 376-385. -/
def RenderSDL.set_scissor (win : Window) (world : World) (x y w h : Int) (set : Bool) :
    Option World :=
  match getDisplayScaleFactor win with
  | none => none
  | some (scale_x, scale_y) =>
    let world :=
      if set then world.gl (GLCall.Enable GLenum.GL_SCISSOR_TEST)
      else world.gl (GLCall.Disable GLenum.GL_SCISSOR_TEST)
    match scaledCoord scale_x x, scaledCoord scale_y y, scaledCoord scale_x w,
        scaledCoord scale_y h with
    | some a, some b, some c, some d => some (world.gl (GLCall.Scissor a b c d))
    | _, _, _, _ => none

/-! ## Platform adapter -/

/-- A file system: the bytes of the file behind each path that can be
opened. -/
abbrev FileSystem := String → Option (List Byte)

/-- What `load_file` leaves behind: the pointer returned (`none` for
`nullptr`, otherwise the block it points to), the caller's `buf_size`, and the
allocator calls. -/
structure LoadResult where
  memblock : Option Block
  buf_size : Nat
  heap : List HeapEvent
  deriving DecidableEq, Repr

/-- Embedding of `PlatformSDL::load_file`, lines 47-61.  The stream is opened
at the end of the file (`ios::ate`), so `tellg()` is the file length, which
the conversion to `size_t` keeps; `read` copies `buf_size` bytes from the
start of the file into the block. -/
def PlatformSDL.load_file (fs : FileSystem) (heap : List HeapEvent) (path : String)
    (buf_size : Nat) : LoadResult :=
  match fs path with
  | some bytes =>
    let size := bytes.length
    let buf_size := size
    let heap := heap ++ [HeapEvent.malloc buf_size]
    let memblock : Block := List.replicate buf_size none
    let got := bytes.take buf_size
    let memblock := got.map some ++ memblock.drop got.length
    { memblock := some memblock, buf_size := buf_size, heap := heap }
  | none =>
    { memblock := none, buf_size := buf_size, heap := heap }

/-! ## Concrete inputs -/

/-- A world in which nothing has happened yet. -/
def World.empty : World := { calls := [], errors := [], stdout := [], heap := [] }

/-- A world with one OpenGL error flag (`GL_INVALID_ENUM`, 1280) pending. -/
def worldPending : World := { calls := [], errors := [1280], stdout := [], heap := [] }

/-- A vertex. -/
def vertexA : render_vertex_3d_t := { x := 1, y := 2, z := 3, clr := 4, u := 5, v := 6 }

/-- Another vertex. -/
def vertexB : render_vertex_3d_t := { x := 7, y := 8, z := 9, clr := 10, u := 11, v := 12 }

/-- The file-scope variables as a successful `create()` leaves them. -/
def globalsCreated : Globals :=
  { gProgramID := 3, gVertexPos3DLocation := 0, gVertexClrLocation := 1,
    gVertexTxtLocation := 2, gScreenSizeLocation := 0, vao := 1, vbo := 1 }

/-- A renderer whose mesh holds two vertices. -/
def rendererDrawn : RenderSDL := { _mesh := [vertexA, vertexB] }

/-- A renderer whose mesh holds `2^31` vertices. -/
def rendererHuge : RenderSDL := { _mesh := List.replicate 2147483648 vertexA }

/-- A driver for which both shaders compile and the program links. -/
def driverGood : GLDriver :=
  { programID := 3, vertexShader := 1, fragmentShader := 2, vShaderCompiled := 1,
    fShaderCompiled := 1, programSuccess := 1, vao := 1, vbo := 1, screenSizeLocation := 0,
    ftex := 7, isShader := fun _ => true, isProgram := fun _ => true,
    infoLogLength := fun _ => 0, infoLog := fun _ => "" }

/-- A driver for which the vertex shader does not compile
(`GL_COMPILE_STATUS` is `GL_FALSE`). -/
def driverBadVertex : GLDriver := { driverGood with vShaderCompiled := 0 }

/-- A window whose drawable size, 2 x 2, is twice its logical size, 1 x 1. -/
def windowTwice : Window := { drawable_w := 2, drawable_h := 2, window_w := 1, window_h := 1 }

/-- A window of logical size 800 x 600 whose drawable size is twice that. -/
def windowRetina : Window :=
  { drawable_w := 1600, drawable_h := 1200, window_w := 800, window_h := 600 }

/-- A file system with the single file `font.ttf` of three bytes. -/
def fsOneFile : FileSystem := fun path => if path = "font.ttf" then some [1, 2, 3] else none

/-! ## The record of calls under `checkError` -/

@[simp] theorem World.commands_gl (w : World) (c : GLCall) :
    (w.gl c).commands = w.commands ++ (if c.isPoll then [] else [c]) := by
  cases h : c.isPoll <;> simp [World.commands, World.gl, List.filter_append, h]

@[simp] theorem World.commands_printf (w : World) (o : Out) :
    (w.printf o).commands = w.commands := rfl

@[simp] theorem World.heap_gl (w : World) (c : GLCall) : (w.gl c).heap = w.heap := rfl

@[simp] theorem World.heap_printf (w : World) (o : Out) : (w.printf o).heap = w.heap := rfl

@[simp] theorem World.commands_alloc (w : World) (e : HeapEvent) :
    (w.alloc e).commands = w.commands := rfl

@[simp] theorem World.heap_alloc (w : World) (e : HeapEvent) :
    (w.alloc e).heap = w.heap ++ [e] := rfl

theorem commands_checkErrorLoop (pending : List Nat) (w : World) :
    (checkErrorLoop pending w).commands = w.commands := by
  induction pending generalizing w with
  | nil => simp [checkErrorLoop, World.commands, World.gl, List.filter_append, GLCall.isPoll]
  | cons err rest ih =>
    unfold checkErrorLoop
    split
    · rw [ih]
      simp [GLCall.isPoll]
    · simp [World.commands, World.gl, List.filter_append, GLCall.isPoll]

theorem heap_checkErrorLoop (pending : List Nat) (w : World) :
    (checkErrorLoop pending w).heap = w.heap := by
  induction pending generalizing w with
  | nil => rfl
  | cons err rest ih =>
    unfold checkErrorLoop
    split
    · rw [ih]
      rfl
    · rfl

/-- The polls of `checkError` leave the other calls as they are. -/
@[simp] theorem commands_checkError (w : World) : (checkError w).commands = w.commands :=
  commands_checkErrorLoop w.errors w

/-- The function `checkError` calls neither `malloc` nor `free`. -/
@[simp] theorem heap_checkError (w : World) : (checkError w).heap = w.heap :=
  heap_checkErrorLoop w.errors w

/-! ## `render_mesh`, `render`, `end` -/

/-- The calls of `render`, apart from the error polls. -/
theorem commands_render (s : RenderSDL) (g : Globals) (w : World) (start count : Int) :
    (s.render g w start count).commands = w.commands ++
      [GLCall.BindBuffer GLenum.GL_ARRAY_BUFFER g.vbo,
       GLCall.BufferData GLenum.GL_ARRAY_BUFFER
         (wrapU64 (sizeof_render_vertex_3d_t * s._mesh.length)) s._mesh GLenum.GL_DYNAMIC_DRAW,
       GLCall.VertexAttribPointer (toGLuint g.gVertexPos3DLocation) 3 GLenum.GL_FLOAT false
         sizeof_render_vertex_3d_t 0,
       GLCall.VertexAttribPointer (toGLuint g.gVertexClrLocation) 4 GLenum.GL_UNSIGNED_BYTE true
         sizeof_render_vertex_3d_t offsetof_clr,
       GLCall.VertexAttribPointer (toGLuint g.gVertexTxtLocation) 2 GLenum.GL_FLOAT false
         sizeof_render_vertex_3d_t offsetof_u,
       GLCall.DrawArrays GLenum.GL_TRIANGLES start count] := by
  simp [RenderSDL.render, GLCall.isPoll]

/-- The result of `render_mesh` on an array that holds at least `c`
vertices, with the `int` and `size_t` expressions left as the code computes
them. -/
theorem render_mesh_eq (s : RenderSDL) (g : Globals) (w : World)
    (tris : List render_vertex_3d_t) (c : Nat) (b : Bool) (htris : c ≤ tris.length) :
    s.render_mesh g w tris c b =
      some (true, { _mesh := s._mesh ++ tris.take c },
        RenderSDL.render { _mesh := s._mesh ++ tris.take c } g w
          (wrapI32 (wrapI32 ((s._mesh ++ tris.take c).length : Nat) - c)) c) := by
  have h : (0 : Int) ≤ (c : Int) ∧ (c : Int) ≤ (tris.length : Int) := by
    constructor
    · exact Int.ofNat_nonneg c
    · exact_mod_cast htris
  simp [RenderSDL.render_mesh, h]

/-- C1: for every renderer state whose mesh is empty (and whatever the
file-scope variables and the world are), `render_mesh` on an array `a`
(count = its length N) and then on an array `b` (count = its length M) both
return `true` and leave the mesh equal to `a` followed by `b`, N + M
vertices; `end()` after that leaves a mesh of zero vertices. -/
theorem render_mesh_twice_then_end (s : RenderSDL) (g : Globals) (w : World)
    (a b : List render_vertex_3d_t) (f1 f2 : Bool) (hempty : s._mesh = []) :
    ∃ s1 w1 s2 w2,
      s.render_mesh g w a a.length f1 = some (true, s1, w1) ∧
      s1.render_mesh g w1 b b.length f2 = some (true, s2, w2) ∧
      s2._mesh = a ++ b ∧
      s2._mesh.length = a.length + b.length ∧
      (s2.end_ g w2).2.1._mesh = [] ∧
      (s2.end_ g w2).2.1._mesh.length = 0 := by
  refine ⟨_, _, _, _, render_mesh_eq s g w a a.length f1 (Nat.le_refl _),
    render_mesh_eq _ g _ b b.length f2 (Nat.le_refl _), ?_, ?_, ?_, ?_⟩
  · simp [hempty]
  · simp [hempty]
  · unfold RenderSDL.end_
    split <;> simp_all
  · unfold RenderSDL.end_
    split <;> simp_all

/-- Witness of C1: one vertex, then two, on a renderer that has drawn
nothing yet. -/
theorem render_mesh_twice_then_end_witness :
    ∃ s1 w1 s2 w2,
      RenderSDL.initial.render_mesh globalsCreated worldPending [vertexA]
        ([vertexA].length : Nat) false = some (true, s1, w1) ∧
      s1.render_mesh globalsCreated w1 [vertexB, vertexA] ([vertexB, vertexA].length : Nat) true
        = some (true, s2, w2) ∧
      s2._mesh = [vertexA] ++ [vertexB, vertexA] ∧
      s2._mesh.length = [vertexA].length + [vertexB, vertexA].length ∧
      (s2.end_ globalsCreated w2).2.1._mesh = [] ∧
      (s2.end_ globalsCreated w2).2.1._mesh.length = 0 :=
  render_mesh_twice_then_end RenderSDL.initial globalsCreated worldPending [vertexA]
    [vertexB, vertexA] false true rfl

/-- C2, as amended: when the mesh holds `n < 2^31` vertices (so that `n` is
an `int`), `1 ≤ c < 2^31` and the array holds at least `c` vertices,
`render_mesh` with count `c` issues, apart from the buffer binding, the three
attribute pointers and the error polls, one `glBufferData` of
`sizeof(render_vertex_3d_t) * (n + c)` bytes carrying all `n + c` vertices
(a non-empty vector) with usage `GL_DYNAMIC_DRAW`, followed by one
`glDrawArrays` with first `n` and count `c`. -/
theorem render_mesh_upload_then_draw (s : RenderSDL) (g : Globals) (w : World)
    (tris : List render_vertex_3d_t) (c : Nat) (b : Bool)
    (hc : 1 ≤ c) (hcount : c < 2147483648) (htris : c ≤ tris.length)
    (hn : s._mesh.length < 2147483648) :
    ∃ w1,
      s.render_mesh g w tris c b = some (true, { _mesh := s._mesh ++ tris.take c }, w1) ∧
      (s._mesh ++ tris.take c).length = s._mesh.length + c ∧
      s._mesh ++ tris.take c ≠ [] ∧
      w1.commands = w.commands ++
        [GLCall.BindBuffer GLenum.GL_ARRAY_BUFFER g.vbo,
         GLCall.BufferData GLenum.GL_ARRAY_BUFFER
           (sizeof_render_vertex_3d_t * (s._mesh.length + c)) (s._mesh ++ tris.take c)
           GLenum.GL_DYNAMIC_DRAW,
         GLCall.VertexAttribPointer (toGLuint g.gVertexPos3DLocation) 3 GLenum.GL_FLOAT false
           sizeof_render_vertex_3d_t 0,
         GLCall.VertexAttribPointer (toGLuint g.gVertexClrLocation) 4 GLenum.GL_UNSIGNED_BYTE
           true sizeof_render_vertex_3d_t offsetof_clr,
         GLCall.VertexAttribPointer (toGLuint g.gVertexTxtLocation) 2 GLenum.GL_FLOAT false
           sizeof_render_vertex_3d_t offsetof_u,
         GLCall.DrawArrays GLenum.GL_TRIANGLES s._mesh.length c] := by
  have hlen : (s._mesh ++ tris.take c).length = s._mesh.length + c := by
    rw [List.length_append, List.length_take, Nat.min_eq_left htris]
  have hstart : wrapI32 (wrapI32 ((s._mesh ++ tris.take c).length : Nat) - c)
      = (s._mesh.length : Int) := by
    rw [hlen]
    unfold wrapI32
    omega
  have hsize : wrapU64 (sizeof_render_vertex_3d_t * (s._mesh ++ tris.take c).length)
      = sizeof_render_vertex_3d_t * (s._mesh.length + c) := by
    rw [hlen]
    unfold wrapU64 sizeof_render_vertex_3d_t
    omega
  have hne : s._mesh ++ tris.take c ≠ [] := by
    intro h
    rw [h] at hlen
    simp only [List.length_nil] at hlen
    omega
  refine ⟨_, render_mesh_eq s g w tris c b htris, hlen, hne, ?_⟩
  rw [commands_render, hstart, hsize]

/-- Witness of C2 as amended: two vertices in the mesh, one more drawn. -/
theorem render_mesh_upload_then_draw_witness :
    ∃ w1,
      rendererDrawn.render_mesh globalsCreated worldPending [vertexA] (1 : Nat) false
        = some (true, { _mesh := rendererDrawn._mesh ++ [vertexA].take 1 }, w1) ∧
      (rendererDrawn._mesh ++ [vertexA].take 1).length = rendererDrawn._mesh.length + 1 ∧
      rendererDrawn._mesh ++ [vertexA].take 1 ≠ [] ∧
      w1.commands = worldPending.commands ++
        [GLCall.BindBuffer GLenum.GL_ARRAY_BUFFER globalsCreated.vbo,
         GLCall.BufferData GLenum.GL_ARRAY_BUFFER
           (sizeof_render_vertex_3d_t * (rendererDrawn._mesh.length + 1))
           (rendererDrawn._mesh ++ [vertexA].take 1) GLenum.GL_DYNAMIC_DRAW,
         GLCall.VertexAttribPointer (toGLuint globalsCreated.gVertexPos3DLocation) 3
           GLenum.GL_FLOAT false sizeof_render_vertex_3d_t 0,
         GLCall.VertexAttribPointer (toGLuint globalsCreated.gVertexClrLocation) 4
           GLenum.GL_UNSIGNED_BYTE true sizeof_render_vertex_3d_t offsetof_clr,
         GLCall.VertexAttribPointer (toGLuint globalsCreated.gVertexTxtLocation) 2
           GLenum.GL_FLOAT false sizeof_render_vertex_3d_t offsetof_u,
         GLCall.DrawArrays GLenum.GL_TRIANGLES rendererDrawn._mesh.length (1 : Nat)] :=
  render_mesh_upload_then_draw rendererDrawn globalsCreated worldPending [vertexA] 1 false
    (by decide) (by decide) (by decide) (by decide)

/-- With `2^31` vertices in the mesh, `render_mesh` on one more vertex draws
from first `-2147483648`. -/
theorem render_mesh_huge (s : RenderSDL) (g : Globals) (w : World) (v : render_vertex_3d_t)
    (hn : s._mesh.length = 2147483648) :
    ∃ s1 w1,
      s.render_mesh g w [v] (1 : Nat) false = some (true, s1, w1) ∧
      s1._mesh.length = 2147483649 ∧
      w1.commands = w.commands ++
        [GLCall.BindBuffer GLenum.GL_ARRAY_BUFFER g.vbo,
         GLCall.BufferData GLenum.GL_ARRAY_BUFFER 51539607576 s1._mesh GLenum.GL_DYNAMIC_DRAW,
         GLCall.VertexAttribPointer (toGLuint g.gVertexPos3DLocation) 3 GLenum.GL_FLOAT false
           sizeof_render_vertex_3d_t 0,
         GLCall.VertexAttribPointer (toGLuint g.gVertexClrLocation) 4 GLenum.GL_UNSIGNED_BYTE
           true sizeof_render_vertex_3d_t offsetof_clr,
         GLCall.VertexAttribPointer (toGLuint g.gVertexTxtLocation) 2 GLenum.GL_FLOAT false
           sizeof_render_vertex_3d_t offsetof_u,
         GLCall.DrawArrays GLenum.GL_TRIANGLES (-2147483648) (1 : Nat)] := by
  have hlen : (s._mesh ++ [v].take 1).length = 2147483649 := by
    rw [List.length_append, hn]
    rfl
  have hstart : wrapI32 (wrapI32 ((s._mesh ++ [v].take 1).length : Nat) - (1 : Nat))
      = -2147483648 := by
    rw [hlen]
    unfold wrapI32
    omega
  have hsize : wrapU64 (sizeof_render_vertex_3d_t * (s._mesh ++ [v].take 1).length)
      = 51539607576 := by
    rw [hlen]
    unfold wrapU64 sizeof_render_vertex_3d_t
    omega
  refine ⟨_, _, render_mesh_eq s g w [v] 1 false (Nat.le_refl 1), hlen, ?_⟩
  rw [commands_render, hstart, hsize]

/-- Counterexample to C2 as stated: with `n = 2^31` vertices in the mesh and
`c = 1`, the `glBufferData` call of `render_mesh` carries the `n + c`
vertices, and the one `glDrawArrays` call that follows has first
`-2147483648`, which is not `n`. -/
theorem render_mesh_first_not_n :
    rendererHuge._mesh.length = 2147483648 ∧
    (-2147483648 : Int) ≠ ((2147483648 : Nat) : Int) ∧
    ∃ s1 w1,
      rendererHuge.render_mesh globalsCreated World.empty [vertexA] (1 : Nat) false
        = some (true, s1, w1) ∧
      s1._mesh.length = 2147483649 ∧
      w1.commands = World.empty.commands ++
        [GLCall.BindBuffer GLenum.GL_ARRAY_BUFFER globalsCreated.vbo,
         GLCall.BufferData GLenum.GL_ARRAY_BUFFER 51539607576 s1._mesh GLenum.GL_DYNAMIC_DRAW,
         GLCall.VertexAttribPointer (toGLuint globalsCreated.gVertexPos3DLocation) 3
           GLenum.GL_FLOAT false sizeof_render_vertex_3d_t 0,
         GLCall.VertexAttribPointer (toGLuint globalsCreated.gVertexClrLocation) 4
           GLenum.GL_UNSIGNED_BYTE true sizeof_render_vertex_3d_t offsetof_clr,
         GLCall.VertexAttribPointer (toGLuint globalsCreated.gVertexTxtLocation) 2
           GLenum.GL_FLOAT false sizeof_render_vertex_3d_t offsetof_u,
         GLCall.DrawArrays GLenum.GL_TRIANGLES (-2147483648) (1 : Nat)] :=
  ⟨List.length_replicate _ _, by decide,
    render_mesh_huge rendererHuge globalsCreated World.empty vertexA
      (List.length_replicate _ _)⟩

/-- C8: for every renderer state with an empty mesh, `end()` returns `true`
and changes neither the renderer nor the world (no call is issued); for every
renderer state with a non-empty mesh it returns `true`, empties the mesh and
issues, in this order and apart from the error polls,
`glDisable(GL_SCISSOR_TEST)`, `glDisableVertexAttribArray` for the locations
0, 1 and 2 (the values `create()` has left in the file-scope location
variables), and `glUseProgram(0)`. -/
theorem end_noop_or_teardown (s : RenderSDL) (g : Globals) (w : World)
    (hcreated : g.Created) :
    (s._mesh = [] → s.end_ g w = (true, s, w)) ∧
    (s._mesh ≠ [] → ∃ w1,
      s.end_ g w = (true, { _mesh := [] }, w1) ∧
      w1.commands = w.commands ++
        [GLCall.Disable GLenum.GL_SCISSOR_TEST,
         GLCall.DisableVertexAttribArray 0,
         GLCall.DisableVertexAttribArray 1,
         GLCall.DisableVertexAttribArray 2,
         GLCall.UseProgram 0]) := by
  obtain ⟨h0, h1, h2⟩ := hcreated
  constructor
  · intro hempty
    simp [RenderSDL.end_, hempty]
  · intro hne
    have hfalse : s._mesh.isEmpty = false := by
      cases hm : s._mesh with
      | nil => exact absurd hm hne
      | cons v rest => rfl
    refine ⟨(s.end_ g w).2.2, ?_, ?_⟩
    · simp [RenderSDL.end_, hfalse]
    · simp [RenderSDL.end_, hfalse, GLCall.isPoll, h0, h1, h2, toGLuint]

/-- Witness of C8: a renderer with an empty mesh, and one with two vertices
in the mesh, after `create()`. -/
theorem end_noop_or_teardown_witness :
    RenderSDL.initial.end_ globalsCreated worldPending
      = (true, RenderSDL.initial, worldPending) ∧
    ∃ w1,
      rendererDrawn.end_ globalsCreated worldPending = (true, { _mesh := [] }, w1) ∧
      w1.commands = worldPending.commands ++
        [GLCall.Disable GLenum.GL_SCISSOR_TEST,
         GLCall.DisableVertexAttribArray 0,
         GLCall.DisableVertexAttribArray 1,
         GLCall.DisableVertexAttribArray 2,
         GLCall.UseProgram 0] :=
  ⟨(end_noop_or_teardown RenderSDL.initial globalsCreated worldPending ⟨rfl, rfl, rfl⟩).1 rfl,
   (end_noop_or_teardown rendererDrawn globalsCreated worldPending ⟨rfl, rfl, rfl⟩).2
     (by decide)⟩

/-- Whatever the file-scope variables held and whatever the driver answers,
`create()` leaves the locations 0, 1, 2 that `Created` asks for. -/
theorem create_Created (g : Globals) (drv : GLDriver) (w : World) :
    (RenderSDL.create g drv w).2.1.Created :=
  ⟨rfl, rfl, rfl⟩

/-- C5: `set_blend_mode` leaves the renderer as it is and issues exactly:
for `BLEND_NONE`, `glDisable(GL_BLEND)` and no `glBlendFunc`; for
`BLEND_TEXT`, `glBlendFunc(GL_ONE, GL_ONE)` then `glEnable(GL_BLEND)`; for
`BLEND_RECT`, `glBlendFunc(GL_SRC_ALPHA, GL_ONE_MINUS_SRC_ALPHA)` then
`glEnable(GL_BLEND)`.  No other call is issued and nothing else in the world
changes. -/
theorem set_blend_mode_calls (s : RenderSDL) (w : World) :
    s.set_blend_mode w BlendMode.BLEND_NONE
      = (s, { w with calls := w.calls ++ [GLCall.Disable GLenum.GL_BLEND] }) ∧
    s.set_blend_mode w BlendMode.BLEND_TEXT
      = (s, { w with calls := w.calls ++
          [GLCall.BlendFunc GLenum.GL_ONE GLenum.GL_ONE, GLCall.Enable GLenum.GL_BLEND] }) ∧
    s.set_blend_mode w BlendMode.BLEND_RECT
      = (s, { w with calls := w.calls ++
          [GLCall.BlendFunc GLenum.GL_SRC_ALPHA GLenum.GL_ONE_MINUS_SRC_ALPHA,
           GLCall.Enable GLenum.GL_BLEND] }) := by
  refine ⟨rfl, ?_, ?_⟩ <;> simp [RenderSDL.set_blend_mode, World.gl]

/-- C6: when the file system maps `path` to a byte sequence, `load_file`
returns a non-null block of exactly that many bytes holding the file's bytes,
and sets `buf_size` to the length; when `path` cannot be opened it returns
null, calls no allocation function and leaves `buf_size` as it was. -/
theorem load_file_contents (fs : FileSystem) (heap : List HeapEvent) (path : String)
    (buf_size : Nat) :
    (∀ bytes, fs path = some bytes →
      ∃ block, (PlatformSDL.load_file fs heap path buf_size).memblock = some block ∧
        block.length = bytes.length ∧
        block = bytes.map some ∧
        (PlatformSDL.load_file fs heap path buf_size).buf_size = bytes.length) ∧
    (fs path = none →
      (PlatformSDL.load_file fs heap path buf_size).memblock = none ∧
      (PlatformSDL.load_file fs heap path buf_size).heap = heap ∧
      (PlatformSDL.load_file fs heap path buf_size).buf_size = buf_size) := by
  constructor
  · intro bytes hopen
    refine ⟨bytes.map some, ?_, ?_, rfl, ?_⟩
    · simp [PlatformSDL.load_file, hopen]
    · simp
    · simp [PlatformSDL.load_file, hopen]
  · intro hclosed
    simp [PlatformSDL.load_file, hclosed]

/-- Witness of C6: the file `font.ttf` of three bytes, and a path that is
not there. -/
theorem load_file_contents_witness :
    (∃ block, (PlatformSDL.load_file fsOneFile [] "font.ttf" 99).memblock = some block ∧
        block.length = [1, 2, 3].length ∧
        block = [1, 2, 3].map some ∧
        (PlatformSDL.load_file fsOneFile [] "font.ttf" 99).buf_size = [1, 2, 3].length) ∧
    ((PlatformSDL.load_file fsOneFile [] "missing.ttf" 99).memblock = none ∧
      (PlatformSDL.load_file fsOneFile [] "missing.ttf" 99).heap = [] ∧
      (PlatformSDL.load_file fsOneFile [] "missing.ttf" 99).buf_size = 99) :=
  ⟨(load_file_contents fsOneFile [] "font.ttf" 99).1 [1, 2, 3] (by decide),
   (load_file_contents fsOneFile [] "missing.ttf" 99).2 (by decide)⟩

/-- The function `compile_shader` returns 0 when a compile status or the link
status is not `GL_TRUE`, and the program name otherwise. -/
theorem compile_shader_result (drv : GLDriver) (w : World) (vs fs : String) :
    ((drv.vShaderCompiled ≠ GL_TRUE ∨ drv.fShaderCompiled ≠ GL_TRUE ∨
        drv.programSuccess ≠ GL_TRUE) → (compile_shader drv w vs fs).1 = 0) ∧
    ((drv.vShaderCompiled = GL_TRUE ∧ drv.fShaderCompiled = GL_TRUE ∧
        drv.programSuccess = GL_TRUE) → (compile_shader drv w vs fs).1 = drv.programID) := by
  unfold compile_shader
  constructor
  · intro h
    by_cases hv : drv.vShaderCompiled = GL_TRUE
    · by_cases hf : drv.fShaderCompiled = GL_TRUE
      · by_cases hp : drv.programSuccess = GL_TRUE
        · simp [hv, hf, hp] at h
        · simp [hv, hf, hp]
      · simp [hv, hf]
    · simp [hv]
  · rintro ⟨hv, hf, hp⟩
    simp [hv, hf, hp]

/-- The function `create()` stores what `compile_shader` returns in
`gProgramID` and returns `true` whatever that is. -/
theorem create_result (g : Globals) (drv : GLDriver) (w : World) :
    (RenderSDL.create g drv w).1 = true ∧
    (RenderSDL.create g drv w).2.1.gProgramID
      = (compile_shader drv w vertexShaderSource fragmentShaderSource).1 :=
  ⟨rfl, rfl⟩

/-- C7, the code at the failing input: the vertex shader does not compile
(`GL_COMPILE_STATUS` is `GL_FALSE`), so `compile_shader` returns 0 and
`create()` stores the program handle 0, and yet `create()` returns `true`. -/
theorem create_true_after_failed_build :
    driverBadVertex.vShaderCompiled ≠ GL_TRUE ∧
    (compile_shader driverBadVertex World.empty vertexShaderSource fragmentShaderSource).1 = 0 ∧
    (RenderSDL.create Globals.initial driverBadVertex World.empty).2.1.gProgramID = 0 ∧
    (RenderSDL.create Globals.initial driverBadVertex World.empty).1 = true := by
  refine ⟨by decide, ?_, ?_, rfl⟩
  · exact (compile_shader_result driverBadVertex _ _ _).1 (Or.inl (by decide))
  · rw [(create_result _ _ _).2]
    exact (compile_shader_result driverBadVertex _ _ _).1 (Or.inl (by decide))

/-! ## The luminance conversion of `create_texture` -/

/-- One assignment `new_bmp[j++] = old_bmp[i];` that stays inside both blocks
and inside the range of `int`. -/
theorem lumAssign_inside (i k : Nat) (v : Byte) (st : LumState)
    (hread : st.old_bmp[i]? = some v) (hj : st.j = (k : Int)) (hk : k < st.new_bmp.length)
    (hint : k + 1 < 2147483648) :
    lumAssign i st = Except.ok
      { old_bmp := st.old_bmp, new_bmp := st.new_bmp.set k (some v), j := ((k + 1 : Nat) : Int),
        iters := st.iters, reads := st.reads ++ [i], writes := st.writes ++ [(k : Int)] } := by
  have h1 : (0 : Int) ≤ st.j ∧ st.j < (st.new_bmp.length : Int) := by
    rw [hj]
    constructor
    · exact Int.ofNat_nonneg k
    · exact_mod_cast hk
  have h2 : st.j + 1 ≤ 2147483647 := by
    rw [hj]
    omega
  have h3 : st.j.toNat = k := by
    rw [hj]
    exact Int.toNat_ofNat k
  have h4 : st.j + 1 = ((k + 1 : Nat) : Int) := by
    rw [hj]
    omega
  unfold lumAssign
  rw [hread]
  simp only [h1, and_self, if_true, h2, h3]
  rw [h4, hj]

/-- One assignment `new_bmp[j++] = old_bmp[i];` with `j` at `INT_MAX`, inside
both blocks: the increment is undefined. -/
theorem lumAssign_int_max (i : Nat) (v : Byte) (st : LumState)
    (hread : st.old_bmp[i]? = some v) (hj : st.j = 2147483647)
    (hk : 2147483647 < st.new_bmp.length) :
    lumAssign i st = Except.error Undefined.signedOverflow := by
  have h1 : (0 : Int) ≤ st.j ∧ st.j < (st.new_bmp.length : Int) := by
    rw [hj]
    constructor
    · decide
    · exact_mod_cast hk
  have h2 : ¬ (st.j + 1 ≤ 2147483647) := by
    rw [hj]
    decide
  unfold lumAssign
  rw [hread]
  simp only [h1, and_self, if_true, h2, if_false]

/-- One iteration of the loop that stays inside both blocks and inside the
range of `int`. -/
theorem lumBody_inside (i : Nat) (v : Byte) (st : LumState)
    (hread : st.old_bmp[i]? = some v) (hj : st.j = ((3 * i : Nat) : Int))
    (hk : 3 * i + 3 ≤ st.new_bmp.length) (hint : 3 * i + 3 < 2147483648) :
    lumBody i st = Except.ok
      { old_bmp := st.old_bmp,
        new_bmp := ((st.new_bmp.set (3 * i) (some v)).set (3 * i + 1) (some v)).set (3 * i + 2)
          (some v),
        j := ((3 * i + 3 : Nat) : Int),
        iters := st.iters,
        reads := st.reads ++ [i, i, i],
        writes := st.writes ++ [((3 * i : Nat) : Int), ((3 * i + 1 : Nat) : Int),
          ((3 * i + 2 : Nat) : Int)] } := by
  have e1 := lumAssign_inside i (3 * i) v st hread hj (by omega) (by omega)
  have e2 := lumAssign_inside i (3 * i + 1) v
    { old_bmp := st.old_bmp, new_bmp := st.new_bmp.set (3 * i) (some v),
      j := ((3 * i + 1 : Nat) : Int), iters := st.iters, reads := st.reads ++ [i],
      writes := st.writes ++ [((3 * i : Nat) : Int)] }
    hread rfl (by simp only [List.length_set]; omega) (by omega)
  have e3 := lumAssign_inside i (3 * i + 2) v
    { old_bmp := st.old_bmp,
      new_bmp := (st.new_bmp.set (3 * i) (some v)).set (3 * i + 1) (some v),
      j := ((3 * i + 1 + 1 : Nat) : Int), iters := st.iters,
      reads := st.reads ++ [i] ++ [i],
      writes := st.writes ++ [((3 * i : Nat) : Int)] ++ [((3 * i + 1 : Nat) : Int)] }
    hread rfl (by simp only [List.length_set]; omega) (by omega)
  unfold lumBody
  rw [e1]
  dsimp only
  rw [e2]
  dsimp only
  rw [e3]
  simp
  omega

/-- The iteration in which `j` reaches `INT_MAX`, inside both blocks: the
first statement stores at `2^31 - 2`, the second stores at `2^31 - 1` and its
increment is undefined. -/
theorem lumBody_int_max (i : Nat) (v : Byte) (st : LumState)
    (hread : st.old_bmp[i]? = some v) (hj : st.j = ((3 * i : Nat) : Int))
    (hi : 3 * i = 2147483646) (hk : 2147483647 < st.new_bmp.length) :
    lumBody i st = Except.error Undefined.signedOverflow := by
  have e1 := lumAssign_inside i (3 * i) v st hread hj (by omega) (by omega)
  have e2 := lumAssign_int_max i v
    { old_bmp := st.old_bmp, new_bmp := st.new_bmp.set (3 * i) (some v),
      j := ((3 * i + 1 : Nat) : Int), iters := st.iters, reads := st.reads ++ [i],
      writes := st.writes ++ [((3 * i : Nat) : Int)] }
    hread (by simp only []; omega) (by simp only [List.length_set]; omega)
  unfold lumBody
  rw [e1]
  dsimp only
  rw [e2]

/-- The first `k` iterations of the loop from `i` on, when they stay inside
both blocks and inside the range of `int`: the loop goes on from `i + k` in a
state that has the caller's block and the size of the allocated block as
they were, `k` more iterations counted, the indices `i, ..., i + k - 1` read
three times each, the indices `3 * i, ..., 3 * (i + k) - 1` written once each,
in order, and at each index `m` written the byte found at index `m / 3` of
the caller's block. -/
theorem lumLoop_steps (height width : Nat) (k : Nat) :
    ∀ (i : Nat) (st : LumState),
      i + k ≤ wrapU32 (height * width) →
      wrapU32 (height * width) ≤ st.old_bmp.length →
      st.j = ((3 * i : Nat) : Int) →
      3 * (i + k) ≤ st.new_bmp.length →
      3 * (i + k) < 2147483648 →
      ∃ st1, lumLoop height width i st = lumLoop height width (i + k) st1 ∧
        st1.old_bmp = st.old_bmp ∧
        st1.new_bmp.length = st.new_bmp.length ∧
        st1.j = ((3 * (i + k) : Nat) : Int) ∧
        st1.iters = st.iters + k ∧
        st1.reads = st.reads ++ (List.range' i k).flatMap (fun n => [n, n, n]) ∧
        st1.writes = st.writes ++ (List.range' (3 * i) (3 * k)).map Int.ofNat ∧
        ∀ m, st1.new_bmp[m]? =
          if 3 * i ≤ m ∧ m < 3 * (i + k) then some (st.old_bmp[m / 3]?) else st.new_bmp[m]? := by
  induction k with
  | zero =>
    intro i st _ _ hj _ _
    refine ⟨st, rfl, rfl, rfl, by simpa using hj, rfl, by simp, by simp, ?_⟩
    intro m
    rw [if_neg (by omega)]
  | succ k ih =>
    intro i st hin hold hj hnew hint
    have hi : i < st.old_bmp.length := by omega
    have hread : st.old_bmp[i]? = some st.old_bmp[i] := List.getElem?_eq_getElem hi
    have hbody := lumBody_inside i st.old_bmp[i] st hread hj (by omega) (by omega)
    have hwrap : wrapU32 (i + 1) = i + 1 := by
      unfold wrapU32 at *
      omega
    obtain ⟨st1, hloop, hold1, hlen1, hj1, hiters1, hreads1, hwrites1, hnew1⟩ :=
      ih (i + 1)
        { old_bmp := st.old_bmp,
          new_bmp := ((st.new_bmp.set (3 * i) (some st.old_bmp[i])).set (3 * i + 1)
            (some st.old_bmp[i])).set (3 * i + 2) (some st.old_bmp[i]),
          j := ((3 * i + 3 : Nat) : Int),
          iters := st.iters + 1,
          reads := st.reads ++ [i, i, i],
          writes := st.writes ++ [((3 * i : Nat) : Int), ((3 * i + 1 : Nat) : Int),
            ((3 * i + 2 : Nat) : Int)] }
        (by omega) hold (by simp only []; congr 1) (by simp only [List.length_set]; omega)
        (by omega)
    dsimp only at hold1 hlen1 hj1 hiters1 hreads1 hwrites1 hnew1
    have e3 : 3 * (i + 1) = 3 * i + 3 := by omega
    have e4 : i + 1 + k = i + (k + 1) := by omega
    refine ⟨st1, ?_, hold1, ?_, ?_, ?_, ?_, ?_, ?_⟩
    · rw [lumLoop, if_pos (by omega), hbody, hwrap, ← e4]
      exact hloop
    · simpa using hlen1
    · rw [hj1]
      congr 1
      omega
    · rw [hiters1]
      omega
    · rw [hreads1, List.range'_succ]
      simp
    · rw [hwrites1]
      have e : 3 * (k + 1) = 3 * k + 1 + 1 + 1 := by omega
      rw [e, e3, List.range'_succ, List.range'_succ, List.range'_succ]
      simp [Nat.add_assoc]
    · intro m
      rw [hnew1 m]
      by_cases hr : 3 * (i + 1) ≤ m ∧ m < 3 * (i + 1 + k)
      · rw [if_pos hr, if_pos (by omega)]
      · rw [if_neg hr]
        by_cases hm : 3 * i ≤ m ∧ m < 3 * (i + (k + 1))
        · rw [if_pos hm]
          have hd : m / 3 = i := by omega
          have hlt : m < st.new_bmp.length := by omega
          rw [hd, hread]
          simp only [List.getElem?_set, List.length_set]
          have hcases : m = 3 * i ∨ m = 3 * i + 1 ∨ m = 3 * i + 2 := by omega
          rcases hcases with h | h | h <;> subst h <;> simp [hlt]
        · rw [if_neg hm]
          rw [List.getElem?_set_ne (by omega), List.getElem?_set_ne (by omega),
            List.getElem?_set_ne (by omega)]

/-- The `malloc` argument and the loop bound when `3 * width * height` fits
an `int`: no product wraps. -/
theorem lum_no_wrap (width height : Nat) (hsize : 3 * width * height < 2147483648) :
    wrapU32 (height * width) = width * height ∧ lumSize width height = 3 * width * height := by
  have e1 : 3 * width * height = 3 * (width * height) := Nat.mul_assoc 3 width height
  have e2 : height * width = width * height := Nat.mul_comm height width
  rw [e1] at hsize
  rw [e1, e2]
  unfold lumSize wrapU32
  generalize width * height = p at *
  omega

/-- The conversion of a `width * height` image when `3 * width * height`
fits an `int` and the caller's block holds the image. -/
theorem convertLuminance_inside (width height : Nat) (bmp : List Byte)
    (hsize : 3 * width * height < 2147483648) (hbmp : width * height ≤ bmp.length) :
    ∃ st, convertLuminance width height bmp = Except.ok st ∧
      st.old_bmp = bmp ∧
      st.new_bmp.length = 3 * width * height ∧
      st.iters = width * height ∧
      st.reads = (List.range' 0 (width * height)).flatMap (fun n => [n, n, n]) ∧
      st.writes = (List.range' 0 (3 * width * height)).map Int.ofNat ∧
      ∀ m, m < 3 * width * height → st.new_bmp[m]? = some (bmp[m / 3]?) := by
  obtain ⟨hbound, hmalloc⟩ := lum_no_wrap width height hsize
  have e1 : 3 * width * height = 3 * (width * height) := Nat.mul_assoc 3 width height
  obtain ⟨st, hloop, hold, hlen, _, hiters, hreads, hwrites, hnew⟩ :=
    lumLoop_steps height width (width * height) 0
      { old_bmp := bmp, new_bmp := List.replicate (lumSize width height) none, j := 0,
        iters := 0, reads := [], writes := [] }
      (by omega) (by rw [hbound]; exact hbmp) rfl
      (by rw [hmalloc, List.length_replicate]; omega)
      (by omega)
  dsimp only at hold hlen hiters hreads hwrites hnew
  have hend : lumLoop height width (0 + width * height) st = Except.ok st := by
    rw [lumLoop, if_neg (by omega)]
  refine ⟨st, ?_, hold, ?_, ?_, ?_, ?_, ?_⟩
  · unfold convertLuminance
    rw [hloop, hend]
  · rw [hlen, List.length_replicate, hmalloc]
  · omega
  · rw [hreads]
    rfl
  · rw [hwrites, e1]
    rfl
  · intro m hm
    rw [hnew m, if_pos (by omega)]

/-- The conversion of an image for which no size wraps in 32 bits but
`3 * (height * width)`, the number of bytes to write, is past `2^31`, with
the caller's block holding the image: the loop runs 715827882 iterations and
in the next one increments `j` at `INT_MAX`. -/
theorem convertLuminance_overflow (width height : Nat) (bmp : List Byte)
    (hbig : 2147483648 < 3 * wrapU32 (height * width))
    (hmalloc : lumSize width height = 3 * wrapU32 (height * width))
    (hbmp : wrapU32 (height * width) ≤ bmp.length) :
    convertLuminance width height bmp = Except.error Undefined.signedOverflow := by
  obtain ⟨st, hloop, hold, hlen, hj, _, _, _, _⟩ :=
    lumLoop_steps height width 715827882 0
      { old_bmp := bmp, new_bmp := List.replicate (lumSize width height) none, j := 0,
        iters := 0, reads := [], writes := [] }
      (by omega) hbmp rfl
      (by rw [List.length_replicate, hmalloc]; omega)
      (by omega)
  dsimp only at hold hlen hj
  rw [List.length_replicate, hmalloc] at hlen
  have hi : 715827882 < st.old_bmp.length := by
    rw [hold]
    omega
  have hbody := lumBody_int_max 715827882 st.old_bmp[715827882] st
    (List.getElem?_eq_getElem hi) hj (by omega) (by omega)
  unfold convertLuminance
  rw [hloop, lumLoop, if_pos (by omega), hbody]

/-- What `create_texture` does with one channel once the conversion loop has
ended in the state `st`. -/
theorem create_texture_one (drv : GLDriver) (w : World) (width height : Nat) (bmp : List Byte)
    (st : LumState) (hconv : convertLuminance width height bmp = Except.ok st) :
    ∃ r, RenderSDL.create_texture drv w width height 1 bmp = Except.ok r ∧
      r.ftex = drv.ftex ∧
      r.bmp = st.old_bmp ∧
      r.world.commands = w.commands ++
        [GLCall.GenTextures 1,
         GLCall.BindTexture GLenum.GL_TEXTURE_2D drv.ftex,
         GLCall.TexImage2D GLenum.GL_TEXTURE_2D 0 GLenum.GL_RGBA (wrapI32 width)
           (wrapI32 height) 0 GLenum.GL_RGB GLenum.GL_UNSIGNED_BYTE st.new_bmp,
         GLCall.TexParameteri GLenum.GL_TEXTURE_2D GLenum.GL_TEXTURE_MIN_FILTER
           GLenum.GL_LINEAR] ∧
      r.world.heap = w.heap ++
        [HeapEvent.malloc (lumSize width height), HeapEvent.free st.new_bmp.length] := by
  simp [RenderSDL.create_texture, hconv, bmpFormat, GLCall.isPoll]

/-- With one channel, `create_texture` has no result when the conversion
loop has none, for the same reason. -/
theorem create_texture_one_undefined (drv : GLDriver) (w : World) (width height : Nat)
    (bmp : List Byte) (u : Undefined) (hconv : convertLuminance width height bmp = Except.error u) :
    RenderSDL.create_texture drv w width height 1 bmp = Except.error u := by
  simp [RenderSDL.create_texture, hconv]

/-- What `create_texture` does with a channel count other than one for which
the `switch` sets `bmpFormat`. -/
theorem create_texture_other (drv : GLDriver) (w : World) (width height channels : Nat)
    (bmp : List Byte) (format : GLenum) (hch : channels ≠ 1)
    (hformat : bmpFormat channels = some format) :
    ∃ r, RenderSDL.create_texture drv w width height channels bmp = Except.ok r ∧
      r.ftex = drv.ftex ∧
      r.bmp = bmp ∧
      r.world.commands = w.commands ++
        [GLCall.GenTextures 1,
         GLCall.BindTexture GLenum.GL_TEXTURE_2D drv.ftex,
         GLCall.TexImage2D GLenum.GL_TEXTURE_2D 0 GLenum.GL_RGBA (wrapI32 width)
           (wrapI32 height) 0 format GLenum.GL_UNSIGNED_BYTE (bmp.map some),
         GLCall.TexParameteri GLenum.GL_TEXTURE_2D GLenum.GL_TEXTURE_MIN_FILTER
           GLenum.GL_LINEAR] ∧
      r.world.heap = w.heap := by
  simp [RenderSDL.create_texture, hch, hformat, GLCall.isPoll]

/-- Below `2^31` bytes the luminance upload is the expanded image: for a
single-channel image whose block holds `width * height` bytes, with
`width * height * 3 < 2^31`, `create_texture` uploads with `glTexImage2D` a
block of exactly `3 * width * height` bytes in which, for every pixel index
`i < width * height`, the bytes `3i`, `3i + 1` and `3i + 2` all equal the
input byte `i`; the caller's block is as it was. -/
theorem create_texture_luminance (drv : GLDriver) (w : World) (width height : Nat)
    (bmp : List Byte) (hbmp : bmp.length = width * height)
    (hsize : width * height * 3 < 2147483648) :
    ∃ r pixels,
      RenderSDL.create_texture drv w width height 1 bmp = Except.ok r ∧
      r.world.commands = w.commands ++
        [GLCall.GenTextures 1,
         GLCall.BindTexture GLenum.GL_TEXTURE_2D drv.ftex,
         GLCall.TexImage2D GLenum.GL_TEXTURE_2D 0 GLenum.GL_RGBA (wrapI32 width)
           (wrapI32 height) 0 GLenum.GL_RGB GLenum.GL_UNSIGNED_BYTE pixels,
         GLCall.TexParameteri GLenum.GL_TEXTURE_2D GLenum.GL_TEXTURE_MIN_FILTER
           GLenum.GL_LINEAR] ∧
      pixels.length = 3 * width * height ∧
      (∀ i : Nat, i < width * height → ∃ b, bmp[i]? = some b ∧
        pixels[3 * i]? = some (some b) ∧
        pixels[3 * i + 1]? = some (some b) ∧
        pixels[3 * i + 2]? = some (some b)) ∧
      r.bmp = bmp := by
  have e1 : 3 * width * height = 3 * (width * height) := Nat.mul_assoc 3 width height
  obtain ⟨st, hconv, hold, hlen, _, _, _, hnew⟩ :=
    convertLuminance_inside width height bmp (by omega) (by omega)
  obtain ⟨r, hr, _, hrbmp, hcmds, _⟩ := create_texture_one drv w width height bmp st hconv
  refine ⟨r, st.new_bmp, hr, hcmds, hlen, ?_, by rw [hrbmp, hold]⟩
  intro i hi
  have hib : i < bmp.length := by omega
  refine ⟨bmp[i], List.getElem?_eq_getElem hib, ?_, ?_, ?_⟩
  · rw [hnew (3 * i) (by omega), show 3 * i / 3 = i by omega, List.getElem?_eq_getElem hib]
  · rw [hnew (3 * i + 1) (by omega), show (3 * i + 1) / 3 = i by omega,
      List.getElem?_eq_getElem hib]
  · rw [hnew (3 * i + 2) (by omega), show (3 * i + 2) / 3 = i by omega,
      List.getElem?_eq_getElem hib]

/-- C3, the code at the failing input: a 1073741824 x 1 luminance image,
whose block holds `width * height` bytes and for which `width * height * 3`
is below `2^32`.  The loop stores the bytes up to index `2^31 - 1` and then
increments the `int` index `j` at `INT_MAX`: the behaviour of
`create_texture` is undefined there, and no upload is reached. -/
theorem create_texture_luminance_index_overflow :
    (List.replicate 1073741824 (0 : Byte)).length = 1073741824 * 1 ∧
    1073741824 * 1 * 3 < 4294967296 ∧
    RenderSDL.create_texture driverGood World.empty 1073741824 1 1
      (List.replicate 1073741824 (0 : Byte)) = Except.error Undefined.signedOverflow :=
  ⟨List.length_replicate _ _, by decide,
    create_texture_one_undefined driverGood World.empty 1073741824 1 _ _
      (convertLuminance_overflow 1073741824 1 _ (by decide) (by decide)
        (by rw [List.length_replicate]; decide))⟩

/-- C10: in `create_texture` with one channel, when `3 * width * height` is
below `2^31` and the caller's block holds the image, the block is allocated
(and, after the upload of that block, freed) with exactly
`3 * width * height` bytes, the loop runs exactly `width * height`
iterations, every index read is below `width * height`, every index written
is in `[0, 3 * width * height)`, each index below `3 * width * height` is
written exactly once, and every byte `m` of the block holds what was stored
in it, the input byte `m / 3`. -/
theorem create_texture_luminance_in_bounds (drv : GLDriver) (w : World) (width height : Nat)
    (bmp : List Byte) (hsize : 3 * width * height < 2147483648)
    (hbmp : width * height ≤ bmp.length) :
    ∃ st r,
      convertLuminance width height bmp = Except.ok st ∧
      RenderSDL.create_texture drv w width height 1 bmp = Except.ok r ∧
      r.world.heap = w.heap ++
        [HeapEvent.malloc (3 * width * height), HeapEvent.free (3 * width * height)] ∧
      r.world.commands = w.commands ++
        [GLCall.GenTextures 1,
         GLCall.BindTexture GLenum.GL_TEXTURE_2D drv.ftex,
         GLCall.TexImage2D GLenum.GL_TEXTURE_2D 0 GLenum.GL_RGBA (wrapI32 width)
           (wrapI32 height) 0 GLenum.GL_RGB GLenum.GL_UNSIGNED_BYTE st.new_bmp,
         GLCall.TexParameteri GLenum.GL_TEXTURE_2D GLenum.GL_TEXTURE_MIN_FILTER
           GLenum.GL_LINEAR] ∧
      st.new_bmp.length = 3 * width * height ∧
      st.iters = width * height ∧
      (∀ i ∈ st.reads, i < width * height) ∧
      (∀ j ∈ st.writes, 0 ≤ j ∧ j < ((3 * width * height : Nat) : Int)) ∧
      (∀ k : Nat, k < 3 * width * height → st.writes.count (k : Int) = 1) ∧
      (∀ m : Nat, m < 3 * width * height →
        ∃ b, bmp[m / 3]? = some b ∧ st.new_bmp[m]? = some (some b)) := by
  obtain ⟨st, hconv, _, hlen, hiters, hreads, hwrites, hnew⟩ :=
    convertLuminance_inside width height bmp hsize hbmp
  obtain ⟨r, hr, _, _, hcmds, hheap⟩ := create_texture_one drv w width height bmp st hconv
  have e1 : 3 * width * height = 3 * (width * height) := Nat.mul_assoc 3 width height
  refine ⟨st, r, hconv, hr, ?_, hcmds, hlen, hiters, ?_, ?_, ?_, ?_⟩
  · rw [hheap, hlen, (lum_no_wrap width height hsize).2]
  · intro i hi
    rw [hreads] at hi
    simp only [List.mem_flatMap, List.mem_range'_1] at hi
    obtain ⟨k, hk, hik⟩ := hi
    simp only [List.mem_cons, List.mem_singleton, or_self, List.not_mem_nil, or_false] at hik
    omega
  · intro j hj
    rw [hwrites] at hj
    simp only [List.mem_map, List.mem_range'_1] at hj
    obtain ⟨k, hk, rfl⟩ := hj
    simp only [Int.ofNat_eq_coe]
    omega
  · intro k hk
    rw [hwrites]
    apply List.count_eq_one_of_mem
    · exact (List.nodup_range' 0 (3 * width * height)).map Int.ofNat_injective
    · exact List.mem_map.mpr ⟨k, List.mem_range'_1.mpr (by omega), rfl⟩
  · intro m hm
    have hlt : m / 3 < bmp.length := by omega
    exact ⟨bmp[m / 3], List.getElem?_eq_getElem hlt, by
      rw [hnew m hm, List.getElem?_eq_getElem hlt]⟩

/-- Witness of C10: a 2 x 2 luminance image. -/
theorem create_texture_luminance_in_bounds_witness :
    ∃ st r,
      convertLuminance 2 2 [5, 7, 9, 11] = Except.ok st ∧
      RenderSDL.create_texture driverGood worldPending 2 2 1 [5, 7, 9, 11] = Except.ok r ∧
      r.world.heap = worldPending.heap ++
        [HeapEvent.malloc (3 * 2 * 2), HeapEvent.free (3 * 2 * 2)] ∧
      r.world.commands = worldPending.commands ++
        [GLCall.GenTextures 1,
         GLCall.BindTexture GLenum.GL_TEXTURE_2D driverGood.ftex,
         GLCall.TexImage2D GLenum.GL_TEXTURE_2D 0 GLenum.GL_RGBA (wrapI32 (2 : Nat))
           (wrapI32 (2 : Nat)) 0 GLenum.GL_RGB GLenum.GL_UNSIGNED_BYTE st.new_bmp,
         GLCall.TexParameteri GLenum.GL_TEXTURE_2D GLenum.GL_TEXTURE_MIN_FILTER
           GLenum.GL_LINEAR] ∧
      st.new_bmp.length = 3 * 2 * 2 ∧
      st.iters = 2 * 2 ∧
      (∀ i ∈ st.reads, i < 2 * 2) ∧
      (∀ j ∈ st.writes, 0 ≤ j ∧ j < ((3 * 2 * 2 : Nat) : Int)) ∧
      (∀ k : Nat, k < 3 * 2 * 2 → st.writes.count (k : Int) = 1) ∧
      (∀ m : Nat, m < 3 * 2 * 2 →
        ∃ b, ([5, 7, 9, 11] : List Byte)[m / 3]? = some b ∧ st.new_bmp[m]? = some (some b)) :=
  create_texture_luminance_in_bounds driverGood worldPending 2 2 [5, 7, 9, 11] (by decide)
    (by decide)

/-- C9, as amended: with 3 or 4 channels, `create_texture` uploads the
caller's block as it is, with internal format `GL_RGBA`; the source format is
`GL_RGB` for 3 channels and `GL_RGBA` for 4 channels.  The caller's block is
as it was and nothing is allocated. -/
theorem create_texture_rgb_rgba (drv : GLDriver) (w : World) (width height channels : Nat)
    (bmp : List Byte) (hch : channels = 3 ∨ channels = 4) :
    ∃ r,
      RenderSDL.create_texture drv w width height channels bmp = Except.ok r ∧
      r.bmp = bmp ∧
      r.world.commands = w.commands ++
        [GLCall.GenTextures 1,
         GLCall.BindTexture GLenum.GL_TEXTURE_2D drv.ftex,
         GLCall.TexImage2D GLenum.GL_TEXTURE_2D 0 GLenum.GL_RGBA (wrapI32 width)
           (wrapI32 height) 0 (if channels = 3 then GLenum.GL_RGB else GLenum.GL_RGBA)
           GLenum.GL_UNSIGNED_BYTE (bmp.map some),
         GLCall.TexParameteri GLenum.GL_TEXTURE_2D GLenum.GL_TEXTURE_MIN_FILTER
           GLenum.GL_LINEAR] ∧
      r.world.heap = w.heap := by
  rcases hch with h | h <;> subst h
  · obtain ⟨r, hr, _, hb, hc, hh⟩ :=
      create_texture_other drv w width height 3 bmp GLenum.GL_RGB (by decide) rfl
    exact ⟨r, hr, hb, hc, hh⟩
  · obtain ⟨r, hr, _, hb, hc, hh⟩ :=
      create_texture_other drv w width height 4 bmp GLenum.GL_RGBA (by decide) rfl
    exact ⟨r, hr, hb, hc, hh⟩

/-- Witness of C9 as amended: a 1 x 1 image of three channels. -/
theorem create_texture_rgb_rgba_witness :
    ∃ r,
      RenderSDL.create_texture driverGood worldPending 1 1 3 [10, 20, 30] = Except.ok r ∧
      r.bmp = [10, 20, 30] ∧
      r.world.commands = worldPending.commands ++
        [GLCall.GenTextures 1,
         GLCall.BindTexture GLenum.GL_TEXTURE_2D driverGood.ftex,
         GLCall.TexImage2D GLenum.GL_TEXTURE_2D 0 GLenum.GL_RGBA (wrapI32 (1 : Nat))
           (wrapI32 (1 : Nat)) 0 (if 3 = 3 then GLenum.GL_RGB else GLenum.GL_RGBA)
           GLenum.GL_UNSIGNED_BYTE (([10, 20, 30] : List Byte).map some),
         GLCall.TexParameteri GLenum.GL_TEXTURE_2D GLenum.GL_TEXTURE_MIN_FILTER
           GLenum.GL_LINEAR] ∧
      r.world.heap = worldPending.heap :=
  create_texture_rgb_rgba driverGood worldPending 1 1 3 [10, 20, 30] (Or.inl rfl)

/-- Counterexample to C9 as stated: for a 1 x 1 image of four channels the
one `glTexImage2D` call of `create_texture` has source format `GL_RGBA`, not
`GL_RGB`. -/
theorem create_texture_four_channels_rgba :
    ∃ r,
      RenderSDL.create_texture driverGood World.empty 1 1 4 [10, 20, 30, 40] = Except.ok r ∧
      r.world.commands =
        [GLCall.GenTextures 1,
         GLCall.BindTexture GLenum.GL_TEXTURE_2D 7,
         GLCall.TexImage2D GLenum.GL_TEXTURE_2D 0 GLenum.GL_RGBA 1 1 0 GLenum.GL_RGBA
           GLenum.GL_UNSIGNED_BYTE [some 10, some 20, some 30, some 40],
         GLCall.TexParameteri GLenum.GL_TEXTURE_2D GLenum.GL_TEXTURE_MIN_FILTER
           GLenum.GL_LINEAR] ∧
      GLenum.GL_RGBA ≠ GLenum.GL_RGB := by
  obtain ⟨r, hr, _, _, hc, _⟩ :=
    create_texture_other driverGood World.empty 1 1 4 [10, 20, 30, 40] GLenum.GL_RGBA
      (by decide) rfl
  exact ⟨r, hr, hc, by decide⟩

/-! ## `set_scissor` and the rounding of `float` -/

/-- An integer is rounded to itself. -/
theorem roundHalfEven_intCast (n : ℤ) : roundHalfEven (n : ℚ) = n := by
  unfold roundHalfEven
  simp

/-- An integer is truncated to itself. -/
theorem truncate_intCast (n : ℤ) : truncate (n : ℚ) = n := by
  unfold truncate
  split <;> simp

/-- The exponent `roundF32` works with is the `e` with
`2^e ≤ |q| < 2^(e+1)`. -/
theorem log_eq_of_bounds (q : ℚ) (e : ℤ) (h1 : (2 : ℚ) ^ e ≤ |q|)
    (h2 : |q| < (2 : ℚ) ^ (e + 1)) : Int.log 2 |q| = e := by
  have hpos : 0 < |q| := lt_of_lt_of_le (by positivity) h1
  have a : e ≤ Int.log 2 |q| :=
    (Int.zpow_le_iff_le_log (by norm_num) hpos).mp (by exact_mod_cast h1)
  have b : Int.log 2 |q| < e + 1 :=
    (Int.lt_zpow_iff_log_lt (by norm_num) hpos).mp (by exact_mod_cast h2)
  omega

/-- The value of `roundF32` once the exponent is known. -/
theorem roundF32_of_bounds (q : ℚ) (e : ℤ) (h1 : (2 : ℚ) ^ e ≤ |q|)
    (h2 : |q| < (2 : ℚ) ^ (e + 1)) :
    roundF32 q = (roundHalfEven (q / (2 : ℚ) ^ (e - 23)) : ℚ) * (2 : ℚ) ^ (e - 23) := by
  have hpos : 0 < |q| := lt_of_lt_of_le (by positivity) h1
  have hq : q ≠ 0 := abs_pos.mp hpos
  unfold roundF32
  rw [if_neg hq, log_eq_of_bounds q e h1 h2]

/-- A multiple of `2^(e-23)` between `2^e` and `2^(e+1)` is a binary32 value:
rounding leaves it as it is. -/
theorem roundF32_exact (q : ℚ) (e : ℤ) (n : ℤ) (h1 : (2 : ℚ) ^ e ≤ |q|)
    (h2 : |q| < (2 : ℚ) ^ (e + 1)) (hn : q = (n : ℚ) * (2 : ℚ) ^ (e - 23)) :
    roundF32 q = q := by
  have hne : (2 : ℚ) ^ (e - 23) ≠ 0 := by positivity
  rw [roundF32_of_bounds q e h1 h2]
  have hdiv : q / (2 : ℚ) ^ (e - 23) = (n : ℚ) := by
    rw [hn]
    field_simp
  rw [hdiv, roundHalfEven_intCast, ← hn]

/-- Every integer of absolute value at most `2^24` is a binary32 value. -/
theorem roundF32_intCast (z : ℤ) (hz : |z| ≤ 16777216) : roundF32 (z : ℚ) = z := by
  by_cases h0 : z = 0
  · subst h0
    simp [roundF32]
  have hq1 : (1 : ℚ) ≤ |(z : ℚ)| := by
    have h1 : (1 : ℤ) ≤ |z| := Int.one_le_abs h0
    exact_mod_cast h1
  have hq2 : |(z : ℚ)| ≤ 16777216 := by exact_mod_cast hz
  have hpos : 0 < |(z : ℚ)| := lt_of_lt_of_le one_pos hq1
  have he0 : 0 ≤ Int.log 2 |(z : ℚ)| :=
    (Int.zpow_le_iff_le_log (by norm_num) hpos).mp (by simpa using hq1)
  have he1 : Int.log 2 |(z : ℚ)| < 25 :=
    (Int.lt_zpow_iff_log_lt (by norm_num) hpos).mp (by
      have hlt : |(z : ℚ)| < 33554432 := lt_of_le_of_lt hq2 (by norm_num)
      norm_num
      exact hlt)
  have hlow : ((2 : ℕ) : ℚ) ^ Int.log 2 |(z : ℚ)| ≤ |(z : ℚ)| :=
    Int.zpow_log_le_self (by norm_num) hpos
  have hhigh : |(z : ℚ)| < ((2 : ℕ) : ℚ) ^ (Int.log 2 |(z : ℚ)| + 1) :=
    Int.lt_zpow_succ_log_self (by norm_num) _
  generalize Int.log 2 |(z : ℚ)| = e at he0 he1 hlow hhigh
  by_cases hcase : e ≤ 23
  · obtain ⟨d, hd⟩ : ∃ d : ℕ, (d : ℤ) = 23 - e := ⟨(23 - e).toNat, by omega⟩
    refine roundF32_exact (z : ℚ) e (z * 2 ^ d) (by exact_mod_cast hlow)
      (by exact_mod_cast hhigh) ?_
    have hneg : e - 23 = -(d : ℤ) := by omega
    rw [hneg, zpow_neg, zpow_natCast]
    push_cast
    field_simp
  · have he : e = 24 := by omega
    subst he
    have habs : |(z : ℚ)| = 16777216 := le_antisymm hq2 (by
      have hl := hlow
      norm_num at hl
      exact hl)
    have hzabs : |z| = 16777216 := by exact_mod_cast habs
    rcases (abs_eq (by norm_num : (0 : ℤ) ≤ 16777216)).mp hzabs with h | h
    · subst h
      exact roundF32_exact _ 24 8388608 (by norm_num) (by norm_num) (by norm_num)
    · subst h
      exact roundF32_exact _ 24 (-8388608) (by norm_num) (by norm_num) (by norm_num)

/-- The integer `2^24 + 1` is no binary32 value: it lies half way between
`2^24` and `2^24 + 2` and is rounded to the even one, `2^24`. -/
theorem roundF32_16777217 : roundF32 ((16777217 : ℤ) : ℚ) = ((16777216 : ℤ) : ℚ) := by
  have h : roundF32 (16777217 : ℚ) = 16777216 := by
    rw [roundF32_of_bounds 16777217 24 (by norm_num) (by norm_num)]
    have hfl : ⌊(16777217 : ℚ) / (2 : ℚ) ^ ((24 : ℤ) - 23)⌋ = 8388608 := by
      rw [Int.floor_eq_iff]
      constructor <;> norm_num
    unfold roundHalfEven
    rw [hfl]
    norm_num
  exact_mod_cast h

/-- An argument `(int)(scale*v)` when the scale is the integer `k ≥ 1` and
`k * v` has absolute value at most `2^24`: no rounding takes place. -/
theorem scaledCoord_exact (k : Nat) (v : Int) (hk : 1 ≤ k) (hv : |(k : Int) * v| ≤ 16777216) :
    scaledCoord (k : ℚ) v = some ((k : Int) * v) := by
  have hkz : (1 : Int) ≤ (k : Int) := by exact_mod_cast hk
  have hve : |v| ≤ 16777216 := by
    rw [abs_mul, abs_of_nonneg (by omega : (0 : Int) ≤ (k : Int))] at hv
    nlinarith [abs_nonneg v]
  have hprod : (k : ℚ) * ((v : ℤ) : ℚ) = (((k : Int) * v : ℤ) : ℚ) := by push_cast; ring
  have hr := abs_le.mp hv
  unfold scaledCoord
  rw [roundF32_intCast v hve, hprod, roundF32_intCast _ hv]
  unfold intOfFloat
  rw [truncate_intCast, if_pos (by constructor <;> omega)]

/-- The scale factors of a window of logical size `W x H` whose drawable
size is `k*W x k*H`, all at most `2^24`: both are `k`. -/
theorem getDisplayScaleFactor_exact (win : Window) (k W H : Nat)
    (hk : 1 ≤ k) (hW : 1 ≤ W) (hH : 1 ≤ H)
    (hlw : win.window_w = W) (hlh : win.window_h = H)
    (hdw : win.drawable_w = (k : Int) * W) (hdh : win.drawable_h = (k : Int) * H)
    (hkW : k * W ≤ 16777216) (hkH : k * H ≤ 16777216) :
    getDisplayScaleFactor win = some ((k : ℚ), (k : ℚ)) := by
  have hk1 : k ≤ k * W := Nat.le_mul_of_pos_right k hW
  have hW1 : W ≤ k * W := Nat.le_mul_of_pos_left W hk
  have hH1 : H ≤ k * H := Nat.le_mul_of_pos_left H hk
  have hWq : (W : ℚ) ≠ 0 := by
    have : 0 < W := hW
    positivity
  have hHq : (H : ℚ) ≠ 0 := by
    have : 0 < H := hH
    positivity
  have rk : roundF32 (k : ℚ) = k := by
    have h := roundF32_intCast (k : Int) (by rw [abs_of_nonneg (by omega)]; omega)
    exact_mod_cast h
  have rW : roundF32 ((W : Int) : ℚ) = (W : ℚ) := by
    have h := roundF32_intCast (W : Int) (by rw [abs_of_nonneg (by omega)]; omega)
    exact_mod_cast h
  have rH : roundF32 ((H : Int) : ℚ) = (H : ℚ) := by
    have h := roundF32_intCast (H : Int) (by rw [abs_of_nonneg (by omega)]; omega)
    exact_mod_cast h
  have rkW : roundF32 (((k : Int) * W : Int) : ℚ) = (k : ℚ) * W := by
    have h := roundF32_intCast ((k : Int) * W) (by
      rw [abs_of_nonneg (by positivity)]
      exact_mod_cast hkW)
    rw [h]
    push_cast
    ring
  have rkH : roundF32 (((k : Int) * H : Int) : ℚ) = (k : ℚ) * H := by
    have h := roundF32_intCast ((k : Int) * H) (by
      rw [abs_of_nonneg (by positivity)]
      exact_mod_cast hkH)
    rw [h]
    push_cast
    ring
  have hnz : ¬ (win.window_w = 0 ∨ win.window_h = 0) := by
    rw [hlw, hlh]
    omega
  unfold getDisplayScaleFactor
  rw [if_neg hnz, hlw, hlh, hdw, hdh, rW, rH, rkW, rkH]
  rw [mul_div_assoc, div_self hWq, mul_one, mul_div_assoc, div_self hHq, mul_one, rk]

/-- How `set_scissor` puts its call together from the scale factors and the
four converted products. -/
theorem set_scissor_of_scaled (win : Window) (world : World) (x y w h : Int) (set : Bool)
    (sx sy : ℚ) (a b c d : Int) (hs : getDisplayScaleFactor win = some (sx, sy))
    (ha : scaledCoord sx x = some a) (hb : scaledCoord sy y = some b)
    (hc : scaledCoord sx w = some c) (hd : scaledCoord sy h = some d) :
    RenderSDL.set_scissor win world x y w h set =
      some ((if set then world.gl (GLCall.Enable GLenum.GL_SCISSOR_TEST)
        else world.gl (GLCall.Disable GLenum.GL_SCISSOR_TEST)).gl (GLCall.Scissor a b c d)) := by
  unfold RenderSDL.set_scissor
  rw [hs]
  simp only [ha, hb, hc, hd]

/-- The argument `(int)(2.0f * 16777217)`: the conversion of `16777217` to
`float` gives `16777216`, and the product is `33554432`. -/
theorem scaledCoord_two_16777217 : scaledCoord ((2 : Nat) : ℚ) 16777217 = some 33554432 := by
  have hprod : ((2 : Nat) : ℚ) * ((16777216 : ℤ) : ℚ) = ((33554432 : ℤ) : ℚ) := by norm_num
  have hexact : roundF32 ((33554432 : ℤ) : ℚ) = ((33554432 : ℤ) : ℚ) :=
    roundF32_exact _ 25 8388608 (by norm_num) (by norm_num) (by norm_num)
  unfold scaledCoord
  rw [roundF32_16777217, hprod, hexact]
  unfold intOfFloat
  rw [truncate_intCast, if_pos (by decide)]

/-- C4, as amended.  The scale factors are the binary32 quotients
`fl(fl(drawable_w) / fl(window_w))` and `fl(fl(drawable_h) / fl(window_h))`
(logical size not zero); an argument `(int)(s*v)` is the truncation of the
binary32 product `fl(s * fl(v))` when that is an `int`; `set_scissor` toggles
the scissor test and issues `glScissor` with `x` and `w` scaled by the first
factor only and `y` and `h` by the second only.  When the logical size is
`W x H` (both at least 1), the drawable size is `k*W x k*H` with `k ≥ 1` and
`k*W`, `k*H`, `|k*x|`, `|k*y|`, `|k*w|`, `|k*h|` are at most `2^24`, so that
every value is a binary32 value, the call is
`glScissor(k*x, k*y, k*w, k*h)`. -/
theorem set_scissor_scaled (win : Window) (world : World) (x y w h : Int) (set : Bool) :
    (win.window_w ≠ 0 → win.window_h ≠ 0 →
      getDisplayScaleFactor win =
        some (roundF32 (roundF32 win.drawable_w / roundF32 win.window_w),
          roundF32 (roundF32 win.drawable_h / roundF32 win.window_h))) ∧
    (∀ (s : ℚ) (v t : Int), scaledCoord s v = some t → t = truncate (roundF32 (s * roundF32 v))) ∧
    (∀ (sx sy : ℚ) (a b c d : Int), getDisplayScaleFactor win = some (sx, sy) →
      scaledCoord sx x = some a → scaledCoord sy y = some b →
      scaledCoord sx w = some c → scaledCoord sy h = some d →
      RenderSDL.set_scissor win world x y w h set =
        some ((if set then world.gl (GLCall.Enable GLenum.GL_SCISSOR_TEST)
          else world.gl (GLCall.Disable GLenum.GL_SCISSOR_TEST)).gl
            (GLCall.Scissor a b c d))) ∧
    (∀ k W H : Nat, 1 ≤ k → 1 ≤ W → 1 ≤ H →
      win.window_w = W → win.window_h = H →
      win.drawable_w = (k : Int) * W → win.drawable_h = (k : Int) * H →
      k * W ≤ 16777216 → k * H ≤ 16777216 →
      |(k : Int) * x| ≤ 16777216 → |(k : Int) * y| ≤ 16777216 →
      |(k : Int) * w| ≤ 16777216 → |(k : Int) * h| ≤ 16777216 →
      RenderSDL.set_scissor win world x y w h set =
        some ((if set then world.gl (GLCall.Enable GLenum.GL_SCISSOR_TEST)
          else world.gl (GLCall.Disable GLenum.GL_SCISSOR_TEST)).gl
            (GLCall.Scissor ((k : Int) * x) ((k : Int) * y) ((k : Int) * w) ((k : Int) * h)))) := by
  refine ⟨?_, ?_, ?_, ?_⟩
  · intro hw hh
    unfold getDisplayScaleFactor
    rw [if_neg (by simp [hw, hh])]
  · intro s v t ht
    unfold scaledCoord intOfFloat at ht
    split at ht
    · exact (Option.some.inj ht).symm
    · exact absurd ht (by simp)
  · intro sx sy a b c d hs ha hb hc hd
    exact set_scissor_of_scaled win world x y w h set sx sy a b c d hs ha hb hc hd
  · intro k W H hk hW hH hlw hlh hdw hdh hkW hkH hx hy hw hh
    exact set_scissor_of_scaled win world x y w h set k k _ _ _ _
      (getDisplayScaleFactor_exact win k W H hk hW hH hlw hlh hdw hdh hkW hkH)
      (scaledCoord_exact k x hk hx) (scaledCoord_exact k y hk hy)
      (scaledCoord_exact k w hk hw) (scaledCoord_exact k h hk hh)

/-- Witness of C4 as amended: a window of logical size 800 x 600 and
drawable size 1600 x 1200 (`k = 2`), and the rectangle (10, 20, 30, 40). -/
theorem set_scissor_scaled_witness :
    getDisplayScaleFactor windowRetina =
      some (roundF32 (roundF32 windowRetina.drawable_w / roundF32 windowRetina.window_w),
        roundF32 (roundF32 windowRetina.drawable_h / roundF32 windowRetina.window_h)) ∧
    RenderSDL.set_scissor windowRetina World.empty 10 20 30 40 true =
      some ((if true = true then World.empty.gl (GLCall.Enable GLenum.GL_SCISSOR_TEST)
        else World.empty.gl (GLCall.Disable GLenum.GL_SCISSOR_TEST)).gl
          (GLCall.Scissor (((2 : Nat) : Int) * 10) (((2 : Nat) : Int) * 20)
            (((2 : Nat) : Int) * 30) (((2 : Nat) : Int) * 40))) :=
  ⟨(set_scissor_scaled windowRetina World.empty 10 20 30 40 true).1 (by decide) (by decide),
   (set_scissor_scaled windowRetina World.empty 10 20 30 40 true).2.2.2 2 800 600
     (by decide) (by decide) (by decide) rfl rfl rfl rfl (by decide) (by decide)
     (by decide) (by decide) (by decide) (by decide)⟩

/-- Counterexample to C4 as stated: the drawable size, 2 x 2, is exactly
twice the logical size, 1 x 1, and for the rectangle (16777217, 3, 5, 7) the
call issued is `glScissor(33554432, 6, 10, 14)`: the first argument is not
`2 * 16777217 = 33554434`. -/
theorem set_scissor_not_doubled :
    windowTwice.drawable_w = 2 * windowTwice.window_w ∧
    windowTwice.drawable_h = 2 * windowTwice.window_h ∧
    RenderSDL.set_scissor windowTwice World.empty 16777217 3 5 7 true =
      some ((World.empty.gl (GLCall.Enable GLenum.GL_SCISSOR_TEST)).gl
        (GLCall.Scissor 33554432 6 10 14)) ∧
    (33554432 : Int) ≠ 2 * 16777217 := by
  refine ⟨by decide, by decide, ?_, by decide⟩
  have hs := getDisplayScaleFactor_exact windowTwice 2 1 1 (by decide) (by decide) (by decide)
    rfl rfl rfl rfl (by decide) (by decide)
  have hy := scaledCoord_exact 2 3 (by decide) (by decide)
  have hw := scaledCoord_exact 2 5 (by decide) (by decide)
  have hh := scaledCoord_exact 2 7 (by decide) (by decide)
  exact set_scissor_of_scaled windowTwice World.empty 16777217 3 5 7 true _ _ _ _ _ _ hs
    scaledCoord_two_16777217 hy hw hh
